import Mathlib

/-!
ATS: shared-state ownership, evaluators and process-kernel coupling

A shallow embedding of parts of the ATS sources

* `src/state/Field_CV.cc`
* `src/pks/mpc/coupled_transport/mpc_coupled_transport.cc`
* `src/pks/flow/constitutive_relations/elevation/elevation_evaluator.cc`
* `src/pks/flow/richards/richards_physics.cc`

Conventions.  A `double` is a rational number (exact arithmetic).  A C++
object is a structure, a method is a function taking the object and giving
back the object it leaves behind together with what the call returned or
threw.  Collaborators declared outside these files are taken as parameters.
-/

namespace Amanzi

/-! ## Definitions -/

/-- Exceptions and fatal conditions the embedded code can raise. -/
inductive Err where
  /-- Raised by `assert_owner_or_die_`: the requester is not the owner. -/
  | OwnershipViolation
  /-- An empty `Teuchos::RCP` was dereferenced. -/
  | NullReference
  /-- An `ASSERT(...)` did not hold. -/
  | AssertionFailed
  /-- A `Teuchos::ParameterList` entry has another type than the one asked for. -/
  | InvalidParameterType
  /-- An index outside a `Teuchos::Array` or a vector, or an unassigned index
  member, was used. -/
  | OutOfRange
  /-- An `Errors::Message` thrown through `Exceptions::amanzi_throw`. -/
  | Message (text : String)
  deriving DecidableEq, Repr

/-- The outcome of calling a method on an object of type `σ`: the object as
the call leaves it, and the value returned or the exception thrown. -/
structure Call (σ α : Type) where
  /-- The object after the call. -/
  state : σ
  /-- The returned value or the exception. -/
  result : Except Err α

/-- An `Epetra_MultiVector`: `v[j][i]` is entry `i` of vector (degree of freedom) `j`. -/
abbrev Epetra_MultiVector := List (List ℚ)

/-- One named component of a `CompositeVector` (for instance "cell", "face",
"boundary_face") with the names of its degrees of freedom. -/
structure CVComponent where
  /-- The component name. -/
  name : String
  /-- One subfield name per degree of freedom. -/
  subfield_names : List String
  /-- The owned entries: `view[j][i]`. -/
  view : Epetra_MultiVector
  deriving DecidableEq, Repr

/-- A `CompositeVector`: an ordered collection of named components. -/
structure CompositeVector where
  /-- The components in declaration order. -/
  components : List CVComponent
  deriving DecidableEq, Repr

/-- The call `v.MyLength()`: the number of owned entries, the length of vector 0. -/
def MyLength (v : Epetra_MultiVector) : Nat := (v.headD []).length

/-- The read `v[j][i]`; the array is not bounds-checked, a read outside it gives 0 here. -/
def mv_get (v : Epetra_MultiVector) (j i : Nat) : ℚ := (v.getD j []).getD i 0

/-- The write `v[j][i] = x`. -/
def mv_set (v : Epetra_MultiVector) (j i : Nat) (x : ℚ) : Epetra_MultiVector :=
  v.set j ((v.getD j []).set i x)

/-- The view of the first component called `name` among `cs`. -/
def findView (name : String) : List CVComponent → Option Epetra_MultiVector
  | [] => none
  | c :: cs => if c.name = name then some c.view else findView name cs

/-- The components `cs` with the data of the first one called `name` replaced by `v`. -/
def setView (name : String) (v : Epetra_MultiVector) : List CVComponent → List CVComponent
  | [] => []
  | c :: cs => if c.name = name then { c with view := v } :: cs else c :: setView name v cs

namespace CompositeVector

/-- The method `has_component(name)`. -/
def has_component (cv : CompositeVector) (name : String) : Bool :=
  (findView name cv.components).isSome

/-- The method `ViewComponent(name, false)`: the owned entries of a component. -/
def ViewComponent (cv : CompositeVector) (name : String) : Option Epetra_MultiVector :=
  findView name cv.components

/-- Writing through the reference `*ViewComponent(name, false)`: the vector with
that component's data replaced. -/
def SetComponent (cv : CompositeVector) (name : String) (v : Epetra_MultiVector) :
    CompositeVector :=
  { components := setView name v cv.components }

/-- The method `size(name)`: the number of owned entities of a component. -/
def size (cv : CompositeVector) (name : String) : Nat :=
  MyLength ((cv.ViewComponent name).getD [])

/-- The read `cv(name, i)`: entry `i` of degree of freedom 0 of a component. -/
def entry (cv : CompositeVector) (name : String) (i : Nat) : ℚ :=
  mv_get ((cv.ViewComponent name).getD []) 0 i

end CompositeVector

/-- A `Teuchos::RCP<CompositeVector>`: empty, or a reference to an object of the store. -/
abbrev RCP := Option Nat

/-- The objects that non-empty handles refer to; a handle shared by two
holders refers to one object. -/
abbrev Store := Nat → CompositeVector

/-- The kind tag of a field. -/
inductive FieldType where
  | NULL_FIELD_TYPE
  | VECTOR_FIELD
  deriving DecidableEq, Repr

/-- The members of the base class `Field`. -/
structure Field where
  fieldname_ : String
  owner_ : String
  type_ : FieldType
  io_restart_ : Bool
  io_vis_ : Bool
  initialized_ : Bool
  deriving DecidableEq, Repr

/-- A `Field_CV`: the base members and the handle `data_`. -/
structure Field_CV extends Field where
  data_ : RCP
  deriving DecidableEq, Repr

namespace Field_CV

/-- The constructor `Field_CV(fieldname, owner)`: `base` is what the base
constructor `Field::Field(fieldname, owner)` built; `data_` starts empty. -/
def ctor (base : Field) : Field_CV :=
  { base with type_ := FieldType.VECTOR_FIELD, data_ := none }

/-- The constructor `Field_CV(fieldname, owner, data)`. -/
def ctor_data (base : Field) (data : RCP) : Field_CV :=
  { base with type_ := FieldType.VECTOR_FIELD, data_ := data }

/-- Modelled from the spec: `Field::assert_owner_or_die_` (defined with the base
class `Field`, outside the given sources).  Mutable access succeeds only if
the requester is the field's owner and otherwise fails with an
`OwnershipViolation`. -/
def assert_owner_or_die_ (f : Field_CV) (pk_name : String) : Except Err Unit :=
  if pk_name = f.owner_ then Except.ok () else Except.error Err.OwnershipViolation

/-- Modelled from the spec: the read-only accessor `GetFieldData() const`
(declared in the header, outside the given sources), open to any caller: it
returns the current handle. -/
def GetFieldData_const (f : Field_CV) : RCP := f.data_

/-- The method `GetFieldData(pk_name)`: write access to the data. -/
def GetFieldData (f : Field_CV) (pk_name : String) : Call Field_CV RCP :=
  match f.assert_owner_or_die_ pk_name with
  | Except.error e => { state := f, result := Except.error e }
  | Except.ok _ => { state := f, result := Except.ok f.data_ }

/-- The method `SetData(pk_name, Teuchos::RCP<CompositeVector>& data)`: overwrite
the data by pointer, not copy. -/
def SetData_RCP (f : Field_CV) (pk_name : String) (data : RCP) : Call Field_CV Unit :=
  match f.assert_owner_or_die_ pk_name with
  | Except.error e => { state := f, result := Except.error e }
  | Except.ok _ => { state := { f with data_ := data }, result := Except.ok () }

/-- The method `SetData(pk_name, const CompositeVector& data)`: `*data_ = data`
copies into the object the handle refers to; the object of the call is the
field together with the store. -/
def SetData_CompositeVector (f : Field_CV) (store : Store) (pk_name : String)
    (data : CompositeVector) : Call (Field_CV × Store) Unit :=
  match f.assert_owner_or_die_ pk_name with
  | Except.error e => { state := (f, store), result := Except.error e }
  | Except.ok _ =>
    match f.data_ with
    | none => { state := (f, store), result := Except.error Err.NullReference }
    | some h => { state := (f, Function.update store h data), result := Except.ok () }

/-- The contents a reader sees through the read-only accessor, if the handle is not empty. -/
def read (f : Field_CV) (store : Store) : Option CompositeVector :=
  f.GetFieldData_const.map store

end Field_CV

/-! ### Parameter lists -/

/-- An entry of a `Teuchos::ParameterList`. -/
inductive ParameterEntry where
  | bool (b : Bool)
  | int (i : Int)
  | double (d : ℚ)
  | string (s : String)
  | array_string (a : List String)
  | sublist (l : List (String × ParameterEntry))

/-- A `Teuchos::ParameterList`: named entries. -/
abbrev ParameterList := List (String × ParameterEntry)

namespace ParameterList

/-- The template `get<bool>(name, def)`: the entry if present (an exception when
it is not a bool), the default otherwise. -/
def get_bool (p : ParameterList) (name : String) (dflt : Bool) : Except Err Bool :=
  match p.lookup name with
  | none => Except.ok dflt
  | some (ParameterEntry.bool b) => Except.ok b
  | some _ => Except.error Err.InvalidParameterType

/-- The template `get<std::string>(name, def)`. -/
def get_string (p : ParameterList) (name : String) (dflt : String) : Except Err String :=
  match p.lookup name with
  | none => Except.ok dflt
  | some (ParameterEntry.string v) => Except.ok v
  | some _ => Except.error Err.InvalidParameterType

/-- The template `get<Teuchos::Array<std::string> >(name)`: no default, a missing entry throws. -/
def get_array_string (p : ParameterList) (name : String) : Except Err (List String) :=
  match p.lookup name with
  | some (ParameterEntry.array_string a) => Except.ok a
  | _ => Except.error Err.InvalidParameterType

/-- The call `Teuchos::sublist(list, name)`: the sublist, empty when it does not exist yet. -/
def sublist (p : ParameterList) (name : String) : Except Err ParameterList :=
  match p.lookup name with
  | none => Except.ok []
  | some (ParameterEntry.sublist l) => Except.ok l
  | some _ => Except.error Err.InvalidParameterType

end ParameterList

/-! ### The coupled surface/subsurface transport coupler -/

/-- The function `std::min(a, b)`. -/
def std_min (a b : ℚ) : ℚ := if b < a then b else a

/-- The levels of `Teuchos::EVerbosityLevel`. -/
inductive EVerbosityLevel where
  | VERB_DEFAULT
  | VERB_NONE
  | VERB_LOW
  | VERB_MEDIUM
  | VERB_HIGH
  | VERB_EXTREME
  deriving DecidableEq, Repr

/-- The integer value of a verbosity level. -/
def EVerbosityLevel.toInt : EVerbosityLevel → Int
  | VERB_DEFAULT => -1
  | VERB_NONE => 0
  | VERB_LOW => 1
  | VERB_MEDIUM => 2
  | VERB_HIGH => 3
  | VERB_EXTREME => 4

/-- What the coupler uses of a child kernel (`Transport::Transport_PK_ATS`,
declared outside the given sources), over the memory `W` the children work
on (the shared `State` and the children's own members).  `get_dt` is, by the
process-kernel contract, a function of the current state without side
effects; `ComputeSolute`, `num_aqueous_component` and `component_names` only read. -/
structure Transport_PK_ATS (W : Type) where
  get_dt : W → ℚ
  MixingSolutesWthSources : ℚ → ℚ → W → W
  /-- Returns `true` on failure. -/
  AdvanceStep : ℚ → ℚ → Bool → W → Bool × W
  num_aqueous_component : W → Nat
  component_names : W → List String
  ComputeSolute : W → Epetra_MultiVector → Nat → ℚ

/-- Which child pointer a call went through. -/
inductive Child where
  | surf_pk_
  | subsurf_pk_
  deriving DecidableEq, Repr

/-- The calls a coupler method makes on its children that may change their state. -/
inductive ChildCall where
  | MixingSolutesWthSources (who : Child) (t_old t_new : ℚ)
  | AdvanceStep (who : Child) (t_old t_new : ℚ) (reinit : Bool)
  deriving DecidableEq, Repr

/-- What is written to the verbose stream `*vo_->os()`. -/
inductive Output where
  /-- The line "surface transport dt = ...". -/
  | surface_dt (dt : ℚ)
  /-- The line "sub surface transport dt = ...". -/
  | subsurface_dt (dt : ℚ)
  /-- The line "name: subsurface =... mol, surface =... mol, ToTaL =... mol". -/
  | mass (name : String) (subsurface surface total : ℚ)
  deriving DecidableEq, Repr

/-- The outcome of a coupler method: the memory it leaves, what it returned
or threw, the state-changing child calls in the order made, the lines written. -/
structure Run (σ α : Type) where
  state : σ
  result : Except Err α
  calls : List ChildCall
  out : List Output

/-- The members of `CoupledTransport_PK` that `get_dt`, `Setup`,
`num_aqueous_component` and `AdvanceStep` read or write (the mesh handles and
flux keys, which they never touch, are left out).  Index members are `none`
until assigned; `S_view w key copy comp` stands for
`S_->GetFieldCopyData(key, copy)->ViewComponent(comp, false)`. -/
structure CoupledTransport_PK (W : Type) where
  sub_pks_ : List (Transport_PK_ATS W)
  name_ : String
  dt_ : ℚ
  vo_ : EVerbosityLevel
  subsurface_name_ : String
  surface_name_ : String
  subsurf_id_ : Option Nat
  surf_id_ : Option Nat
  subsurf_pk_ : Option (Transport_PK_ATS W)
  surf_pk_ : Option (Transport_PK_ATS W)
  S_view : W → String → String → String → Except Err Epetra_MultiVector

namespace CoupledTransport_PK

variable {W : Type}

/-- The expression `sub_pks_[id]`. -/
def sub_pk (pk : CoupledTransport_PK W) (id : Option Nat) : Except Err (Transport_PK_ATS W) :=
  match id with
  | none => Except.error Err.OutOfRange
  | some i =>
    match pk.sub_pks_[i]? with
    | none => Except.error Err.OutOfRange
    | some c => Except.ok c

/-- The first three statements of round `i` of the constructor loop: the
value of `dom_name`, the "domain name" of the list of child `pk_order[i]`
under "PKs" in the global list, "domain" when it has none. -/
def ctor_dom_name (pk_order : List String) (global_list : ParameterList) (i : Nat) :
    Except Err String :=
  match pk_order[i]? with
  | none => Except.error Err.OutOfRange
  | some pk_name =>
    match global_list.sublist "PKs" with
    | Except.error e => Except.error e
    | Except.ok pks =>
      match pks.sublist pk_name with
      | Except.error e => Except.error e
      | Except.ok list => list.get_string "domain name" "domain"

/-- One round `i` of the constructor loop `for (int i=0; i<2; i++)`. -/
def ctor_round (pk_order : List String) (global_list : ParameterList)
    (pk : CoupledTransport_PK W) (i : Nat) : Except Err (CoupledTransport_PK W) :=
  match ctor_dom_name pk_order global_list i with
  | Except.error e => Except.error e
  | Except.ok dom_name =>
    if dom_name = "domain" then
      Except.ok { pk with subsurface_name_ := dom_name, subsurf_id_ := some i }
    else
      Except.ok { pk with surface_name_ := dom_name, surf_id_ := some i }

/-- The constructor.  `plist_`, `sub_pks` and `dt` are what the base
constructors (`PK`, `WeakMPC`) built from the lists: this kernel's own list,
one child per name of "PKs order", the initial step size; `vo` is the level of
the verbose object built from the global list. -/
def ctor (plist_ global_list : ParameterList) (sub_pks : List (Transport_PK_ATS W)) (dt : ℚ)
    (vo : EVerbosityLevel) (S_view : W → String → String → String → Except Err Epetra_MultiVector) :
    Except Err (CoupledTransport_PK W) :=
  let pk0 : CoupledTransport_PK W :=
    { sub_pks_ := sub_pks, name_ := "surface subsurface transport", dt_ := dt, vo_ := vo,
      subsurface_name_ := "", surface_name_ := "", subsurf_id_ := none, surf_id_ := none,
      subsurf_pk_ := none, surf_pk_ := none, S_view := S_view }
  match plist_.get_array_string "PKs order" with
  | Except.error e => Except.error e
  | Except.ok pk_order =>
    match ctor_round pk_order global_list pk0 0 with
    | Except.error e => Except.error e
    | Except.ok pk1 => ctor_round pk_order global_list pk1 1

/-- Modelled from the spec: `set_dt` (declared with the base classes, outside
the given sources) stores a value into the kernel's step-size estimate. -/
def set_dt (pk : CoupledTransport_PK W) (dt : ℚ) : CoupledTransport_PK W :=
  { pk with dt_ := dt }

/-- The method `get_dt()`. -/
def get_dt (pk : CoupledTransport_PK W) (w : W) : Run (CoupledTransport_PK W × W) ℚ :=
  match pk.sub_pk pk.surf_id_ with
  | Except.error e => { state := (pk, w), result := Except.error e, calls := [], out := [] }
  | Except.ok surf =>
    let surf_dt := surf.get_dt w
    match pk.sub_pk pk.subsurf_id_ with
    | Except.error e => { state := (pk, w), result := Except.error e, calls := [], out := [] }
    | Except.ok subsurf =>
      let subsurf_dt := subsurf.get_dt w
      let out :=
        if EVerbosityLevel.VERB_HIGH.toInt ≤ pk.vo_.toInt then
          [Output.surface_dt surf_dt, Output.subsurface_dt subsurf_dt]
        else []
      let dt := std_min surf_dt subsurf_dt
      { state := (pk.set_dt dt, w), result := Except.ok dt, calls := [], out := out }

/-- The method `Setup(S)`: `WeakMPC_Setup` is the base method `WeakMPC::Setup`;
every child of the model is a `Transport_PK_ATS`, so the dynamic casts give the children. -/
def Setup (WeakMPC_Setup : W → W) (pk : CoupledTransport_PK W) (w : W) :
    Call (CoupledTransport_PK W × W) Unit :=
  let w1 := WeakMPC_Setup w
  match pk.sub_pk pk.subsurf_id_ with
  | Except.error e => { state := (pk, w1), result := Except.error e }
  | Except.ok subsurf =>
    let pk1 := { pk with subsurf_pk_ := some subsurf }
    match pk1.sub_pk pk1.surf_id_ with
    | Except.error e => { state := (pk1, w1), result := Except.error e }
    | Except.ok surf =>
      { state := ({ pk1 with surf_pk_ := some surf }, w1), result := Except.ok () }

/-- The method `num_aqueous_component()`. -/
def num_aqueous_component (pk : CoupledTransport_PK W) (w : W) : Except Err Nat :=
  match pk.subsurf_pk_, pk.surf_pk_ with
  | some subsurf, some surf =>
    let num_aq_comp := subsurf.num_aqueous_component w
    if num_aq_comp ≠ surf.num_aqueous_component w then
      Except.error (Err.Message "CoupledTransport_PK:: numbers aqueous component does not match.")
    else Except.ok num_aq_comp
  | _, _ => Except.error Err.NullReference

/-- One round `i` of the diagnostic loop of `AdvanceStep`: the line written. -/
def mass_round (pk : CoupledTransport_PK W) (w : W) (component_names_sub : List String)
    (tcc surf_tcc : Epetra_MultiVector) (i : Nat) : Except Err Output :=
  match pk.sub_pk pk.subsurf_id_ with
  | Except.error e => Except.error e
  | Except.ok subsurf =>
    let mass_subsurface := subsurf.ComputeSolute w tcc i
    match pk.sub_pk pk.surf_id_ with
    | Except.error e => Except.error e
    | Except.ok surf =>
      let mass_surface := surf.ComputeSolute w surf_tcc i
      Except.ok (Output.mass (component_names_sub.getD i "") mass_subsurface mass_surface
        (mass_surface + mass_subsurface))

/-- The diagnostic loop `for (int i=0; i<num_components; i++)` from round `i` on. -/
def mass_loop (pk : CoupledTransport_PK W) (w : W) (component_names_sub : List String)
    (tcc surf_tcc : Epetra_MultiVector) : List Nat → Except Err (List Output)
  | [] => Except.ok []
  | i :: is =>
    match mass_round pk w component_names_sub tcc surf_tcc i with
    | Except.error e => Except.error e
    | Except.ok line =>
      match mass_loop pk w component_names_sub tcc surf_tcc is with
      | Except.error e => Except.error e
      | Except.ok lines => Except.ok (line :: lines)

/-- The method `AdvanceStep(t_old, t_new, reinit)`; it returns `fail`.  The local
`dt_MPC`, computed and never read, is left out. -/
def AdvanceStep (pk : CoupledTransport_PK W) (w : W) (t_old t_new : ℚ) (reinit : Bool) :
    Run (CoupledTransport_PK W × W) Bool :=
  let fail := false
  match pk.subsurf_pk_, pk.surf_pk_ with
  | none, _ => { state := (pk, w), result := Except.error Err.AssertionFailed, calls := [], out := [] }
  | some _, none =>
    { state := (pk, w), result := Except.error Err.AssertionFailed, calls := [], out := [] }
  | some subsurf, some surf =>
    let w1 := surf.MixingSolutesWthSources t_old t_new w
    let w2 := (surf.AdvanceStep t_old t_new reinit w1).2
    let w3 := (subsurf.AdvanceStep t_old t_new reinit w2).2
    let calls := [ChildCall.MixingSolutesWthSources Child.surf_pk_ t_old t_new,
      ChildCall.AdvanceStep Child.surf_pk_ t_old t_new reinit,
      ChildCall.AdvanceStep Child.subsurf_pk_ t_old t_new reinit]
    match pk.S_view w3 "surface-total_component_concentration" "subcycling" "cell" with
    | Except.error e => { state := (pk, w3), result := Except.error e, calls := calls, out := [] }
    | Except.ok surf_tcc =>
      match pk.S_view w3 "total_component_concentration" "subcycling" "cell" with
      | Except.error e => { state := (pk, w3), result := Except.error e, calls := calls, out := [] }
      | Except.ok tcc =>
        let component_names_sub := subsurf.component_names w3
        let num_components := subsurf.num_aqueous_component w3
        if EVerbosityLevel.VERB_MEDIUM.toInt ≤ pk.vo_.toInt then
          match mass_loop pk w3 component_names_sub tcc surf_tcc (List.range num_components) with
          | Except.error e =>
            { state := (pk, w3), result := Except.error e, calls := calls, out := [] }
          | Except.ok lines =>
            { state := (pk, w3), result := Except.ok fail, calls := calls, out := lines }
        else
          { state := (pk, w3), result := Except.ok fail, calls := calls, out := [] }

end CoupledTransport_PK

/-! ### The state registry -/

/-- A field key. -/
abbrev Key := String

/-- Modelled from the spec: the `State` (declared outside the given sources):
the current time, the registry of fields (name, owner, flags) and the
current value of every field, which read-only access always returns. -/
structure State where
  time_ : ℚ
  fields_ : List Field
  data_ : Key → CompositeVector

namespace State

/-- Modelled from the spec: `GetFieldData(name)`, read-only access open to any
caller; it always returns the current value. -/
def GetFieldData (S : State) (name : Key) : CompositeVector := S.data_ name

/-- The registered field called `name`, if any. -/
def field (S : State) (name : Key) : Option Field :=
  S.fields_.find? (fun f => f.fieldname_ = name)

/-- The owner recorded for the field called `name`, if it is registered. -/
def owner_of (S : State) (name : Key) : Option Key := (S.field name).map (fun f => f.owner_)

/-- Modelled from the spec: `RequireField(name, requester)` is idempotent; it
creates the field on the first call, recording the requester as owner, and
leaves an existing field as it is (the owner is fixed at creation). -/
def RequireField (S : State) (name owner : Key) : State :=
  match S.field name with
  | some _ => S
  | none =>
    { S with fields_ := S.fields_ ++
        [{ fieldname_ := name, owner_ := owner, type_ := FieldType.VECTOR_FIELD,
           io_restart_ := true, io_vis_ := true, initialized_ := false }] }

/-- The registry with `g` applied to the first field called `name`. -/
def modify_field (name : Key) (g : Field → Field) : List Field → List Field
  | [] => []
  | f :: fs => if f.fieldname_ = name then g f :: fs else f :: modify_field name g fs

/-- Modelled from the spec: `GetField(name, pk_name)->g(...)`, owner-gated
mutable access to a registered field followed by a setter `g` on it: it
fails when no such field is registered or the requester is not its owner. -/
def with_field (S : State) (name pk_name : Key) (g : Field → Field) : Except Err State :=
  match S.field name with
  | none => Except.error (Err.Message "field not found")
  | some f =>
    if pk_name = f.owner_ then Except.ok { S with fields_ := modify_field name g S.fields_ }
    else Except.error Err.OwnershipViolation

/-- The call `GetField(name, pk_name)->set_io_vis(io_vis)`. -/
def set_io_vis (S : State) (name pk_name : Key) (io_vis : Bool) : Except Err State :=
  S.with_field name pk_name (fun f => { f with io_vis_ := io_vis })

/-- The call `GetField(name, pk_name)->set_io_checkpoint(io_checkpoint)`. -/
def set_io_checkpoint (S : State) (name pk_name : Key) (io_checkpoint : Bool) :
    Except Err State :=
  S.with_field name pk_name (fun f => { f with io_restart_ := io_checkpoint })

end State

/-! ### The elevation evaluator -/

/-- What the base check `SecondaryVariablesFieldEvaluator::HasFieldChanged`
gives back: its answer, how many times it ran `UpdateField_`, the memory after. -/
structure BaseCheck (W : Type) where
  changed : Bool
  updates : Nat
  state : W

/-- What `ElevationEvaluator` uses of its base class
`SecondaryVariablesFieldEvaluator` (declared outside the given sources), over
the memory `W` it works on (the `State` and the base members). -/
structure SecondaryVariablesFieldEvaluator (W : Type) where
  /-- The base method `HasFieldChanged(S, request)`. -/
  HasFieldChanged : W → Key → BaseCheck W
  /-- The base method `UpdateField_(S)`: recompute the evaluator's fields. -/
  UpdateField_ : W → W

/-- The mesh queries `EvaluateField_` makes. -/
structure Mesh where
  /-- The query `exterior_face_epetra_map().GID(bf)`. -/
  exterior_face_GID : Nat → Int
  /-- The query `face_epetra_map(false).LID(gid)`. -/
  face_LID : Int → Int
  /-- The query `face_get_cells(f, AmanziMesh::USED, &cells)`. -/
  face_get_cells : Int → List Nat

/-- The members of `ElevationEvaluator`. -/
structure ElevationEvaluator where
  plist_ : ParameterList
  my_keys_ : List Key
  dependencies_ : List Key
  updated_once_ : Bool
  dynamic_mesh_ : Bool

/-- The outcome of one `HasFieldChanged` call: the evaluator and the memory
after, the value returned, and how many times `UpdateField_` ran during the call. -/
structure HasFieldChangedRun (W : Type) where
  self : ElevationEvaluator
  state : W
  ret : Bool
  updates : Nat

namespace ElevationEvaluator

variable {W : Type}

/-- The constructor; `base_keys` and `base_dependencies` are the keys and
dependencies the base constructor `SecondaryVariablesFieldEvaluator(plist)` left. -/
def ctor (plist : ParameterList) (base_keys base_dependencies : List Key) :
    Except Err ElevationEvaluator :=
  match plist.get_string "elevation key" "elevation" with
  | Except.error e => Except.error e
  | Except.ok elevation_key =>
    match plist.get_string "slope magnitude key" "slope_magnitude" with
    | Except.error e => Except.error e
    | Except.ok slope_key =>
      match plist.get_bool "dynamic mesh" false with
      | Except.error e => Except.error e
      | Except.ok dynamic_mesh =>
        Except.ok
          { plist_ := plist
            my_keys_ := base_keys ++ [elevation_key, slope_key]
            dependencies_ :=
              if dynamic_mesh then base_dependencies.insert "deformation" else base_dependencies
            updated_once_ := false
            dynamic_mesh_ := dynamic_mesh }

/-- Round `bf` of the boundary-face loop of `EvaluateField_`. -/
def bf_round (mesh : Mesh) (slope_c slope_bf : Epetra_MultiVector) (bf : Nat) :
    Except Err Epetra_MultiVector :=
  let f := mesh.face_LID (mesh.exterior_face_GID bf)
  let cells := mesh.face_get_cells f
  if cells.length = 1 then
    Except.ok (mv_set slope_bf 0 bf (mv_get slope_c 0 (cells.headD 0)))
  else Except.error Err.AssertionFailed

/-- The rounds `bf = 0, ..., n-1` of the loop `for (int bf=0; bf!=nbfaces; ++bf)`, in order. -/
def bf_loop (mesh : Mesh) (slope_c : Epetra_MultiVector) :
    Nat → Epetra_MultiVector → Except Err Epetra_MultiVector
  | 0, slope_bf => Except.ok slope_bf
  | n + 1, slope_bf =>
    match bf_loop mesh slope_c n slope_bf with
    | Except.error e => Except.error e
    | Except.ok v => bf_round mesh slope_c v n

/-- The method `EvaluateField_(S, results)`.  `results` holds the two vectors of
`my_keys_`, elevation and slope; `EvaluateElevationAndSlope_` is the method
of the concrete subclass; `mesh` is `slope->mesh()`. -/
def EvaluateField_
    (EvaluateElevationAndSlope_ : W → CompositeVector × CompositeVector →
      CompositeVector × CompositeVector)
    (mesh : Mesh) (S : W) (results : CompositeVector × CompositeVector) :
    Except Err (CompositeVector × CompositeVector) :=
  let results1 := EvaluateElevationAndSlope_ S results
  let slope := results1.2
  if slope.has_component "boundary_face" then
    match slope.ViewComponent "boundary_face", slope.ViewComponent "cell" with
    | some slope_bf, some slope_c =>
      let nbfaces := MyLength slope_bf
      match bf_loop mesh slope_c nbfaces slope_bf with
      | Except.error e => Except.error e
      | Except.ok v => Except.ok (results1.1, slope.SetComponent "boundary_face" v)
    | _, _ => Except.error (Err.Message "component not found")
  else Except.ok results1

/-- The method `HasFieldChanged(S, request)`. -/
def HasFieldChanged (base : SecondaryVariablesFieldEvaluator W) (ev : ElevationEvaluator)
    (S : W) (request : Key) : HasFieldChangedRun W :=
  let b := base.HasFieldChanged S request
  let changed := b.changed
  if !ev.updated_once_ then
    { self := { ev with updated_once_ := true }, state := base.UpdateField_ b.state,
      ret := true, updates := b.updates + 1 }
  else
    { self := ev, state := b.state, ret := changed, updates := b.updates }

/-- The body of the loop of `EnsureCompatibility` for one key. -/
def EnsureCompatibility_round (ev : ElevationEvaluator) (S : State) (my_key : Key) :
    Call State Unit :=
  let S1 := S.RequireField my_key my_key
  match ev.plist_.get_bool ("visualize " ++ my_key) true with
  | Except.error e => { state := S1, result := Except.error e }
  | Except.ok io_my_key =>
    match S1.set_io_vis my_key my_key io_my_key with
    | Except.error e => { state := S1, result := Except.error e }
    | Except.ok S2 =>
      match ev.plist_.get_bool ("checkpoint " ++ my_key) false with
      | Except.error e => { state := S2, result := Except.error e }
      | Except.ok checkpoint_my_key =>
        match S2.set_io_checkpoint my_key my_key checkpoint_my_key with
        | Except.error e => { state := S2, result := Except.error e }
        | Except.ok S3 => { state := S3, result := Except.ok () }

/-- The loop of `EnsureCompatibility` over the keys still to visit. -/
def EnsureCompatibility_loop (ev : ElevationEvaluator) : List Key → State → Call State Unit
  | [], S => { state := S, result := Except.ok () }
  | my_key :: keys, S =>
    match (ev.EnsureCompatibility_round S my_key).result with
    | Except.error e =>
      { state := (ev.EnsureCompatibility_round S my_key).state, result := Except.error e }
    | Except.ok _ => EnsureCompatibility_loop ev keys (ev.EnsureCompatibility_round S my_key).state

/-- The method `EnsureCompatibility(S)`. -/
def EnsureCompatibility (ev : ElevationEvaluator) (S : State) : Call State Unit :=
  ev.EnsureCompatibility_loop ev.my_keys_ S

/-- The results of `HasFieldChanged` called once per request of a list, in order. -/
def HasFieldChanged_seq (base : SecondaryVariablesFieldEvaluator W) :
    ElevationEvaluator → W → List Key → List (HasFieldChangedRun W)
  | _, _, [] => []
  | ev, S, request :: requests =>
    ev.HasFieldChanged base S request ::
      HasFieldChanged_seq base (ev.HasFieldChanged base S request).self
        (ev.HasFieldChanged base S request).state requests

end ElevationEvaluator

/-- The results of the base check called once per request of a list, in order. -/
def SecondaryVariablesFieldEvaluator.HasFieldChanged_seq {W : Type}
    (base : SecondaryVariablesFieldEvaluator W) : W → List Key → List (BaseCheck W)
  | _, [] => []
  | S, request :: requests =>
    base.HasFieldChanged S request ::
      HasFieldChanged_seq base (base.HasFieldChanged S request).state requests

/-! ### The Richards kernel -/

/-- The members of `Richards` that `AddAccumulation_` reads: the two time levels. -/
structure Richards where
  S_inter_ : State
  S_next_ : State

namespace Richards

end Richards

/-! ### A concrete two-domain set-up -/

namespace Example

/-- A child kernel over a log of what the children did: it proposes `dt`, its
`AdvanceStep` reports `fails` and records the advance, its solute mass is the
sum of the entries of the component. -/
def child (name : String) (dt : ℚ) (fails : Bool) : Transport_PK_ATS (List String) where
  get_dt := fun _ => dt
  MixingSolutesWthSources := fun _ _ w => w ++ [name ++ " mixed"]
  AdvanceStep := fun _ _ _ w => (fails, w ++ [name ++ " advanced"])
  num_aqueous_component := fun _ => 1
  component_names := fun _ => ["tracer"]
  ComputeSolute := fun _ v i => (v.getD i []).sum

/-- The global list: child "surface transport" lives on domain "surface", child
"subsurface transport" and child "third" give no domain name. -/
def global_list : ParameterList :=
  [("PKs", ParameterEntry.sublist
    [("surface transport", ParameterEntry.sublist [("domain name", ParameterEntry.string "surface")]),
     ("subsurface transport", ParameterEntry.sublist []),
     ("third", ParameterEntry.sublist [])])]

/-- The field copies read by the diagnostic: one cell each. -/
def S_view (_ : List String) (key _ _ : String) : Except Err Epetra_MultiVector :=
  if key = "surface-total_component_concentration" then Except.ok [[2]] else Except.ok [[3]]

/-- Two children, surface first; the surface child proposes 1/2 and its advance
reports `surf_fails`, the subsurface child proposes 6/5. -/
def coupler2 (surf_fails : Bool) : Except Err (CoupledTransport_PK (List String)) :=
  CoupledTransport_PK.ctor
    [("PKs order", ParameterEntry.array_string ["surface transport", "subsurface transport"])]
    global_list [child "surface" (1/2) surf_fails, child "subsurface" (6/5) false] 0
    EVerbosityLevel.VERB_MEDIUM S_view

/-- Three children proposing 1/2, 6/5 and 3/10 in that order. -/
def coupler3 : Except Err (CoupledTransport_PK (List String)) :=
  CoupledTransport_PK.ctor
    [("PKs order", ParameterEntry.array_string ["surface transport", "subsurface transport", "third"])]
    global_list [child "surface" (1/2) false, child "subsurface" (6/5) false, child "third" (3/10) false]
    0 EVerbosityLevel.VERB_MEDIUM S_view

/-- The two-child coupler after `Setup` (the base `WeakMPC::Setup` changing nothing). -/
def ready (surf_fails : Bool) : Except Err (CoupledTransport_PK (List String)) :=
  match coupler2 surf_fails with
  | Except.error e => Except.error e
  | Except.ok pk =>
    match (CoupledTransport_PK.Setup id pk []).result with
    | Except.error e => Except.error e
    | Except.ok _ => Except.ok (CoupledTransport_PK.Setup id pk []).state.1

end Example

/-! ### A concrete evaluator set-up -/

/-- The memory of the base evaluator of the example: whether a dependency
reports a change, whether a value was ever computed, the requests served
since the last recomputation, and how many times the fields were recomputed. -/
structure SecondaryMemory where
  dependency_changed : Bool
  computed_ : Bool
  requests_ : List Key
  n_updates : Nat
  deriving DecidableEq, Repr

namespace Example

/-- Modelled from the spec: the base evaluator's `HasFieldChanged`: if a
dependency changed, or no value was ever computed (run at least once), it
recomputes through `UpdateField_` and returns true; otherwise it returns
whether this requester has not yet seen the current value. -/
def base : SecondaryVariablesFieldEvaluator SecondaryMemory where
  UpdateField_ := fun m => { m with computed_ := true, n_updates := m.n_updates + 1 }
  HasFieldChanged := fun m request =>
    if m.dependency_changed || !m.computed_ then
      { changed := true, updates := 1,
        state := { dependency_changed := false, computed_ := true, requests_ := [request],
                   n_updates := m.n_updates + 1 } }
    else if request ∈ m.requests_ then { changed := false, updates := 0, state := m }
    else { changed := true, updates := 0, state := { m with requests_ := request :: m.requests_ } }

/-- The memory before anything was computed. -/
def fresh : SecondaryMemory :=
  { dependency_changed := false, computed_ := false, requests_ := [], n_updates := 0 }

/-- The evaluator built from an empty list over a base without keys and dependencies. -/
def evaluator : Except Err ElevationEvaluator := ElevationEvaluator.ctor [] [] []

/-- A row of four cells 0..3 between faces 0..4: the two boundary faces are
face 0 (boundary face 0, global id 100) and face 4 (boundary face 1, global
id 104); face `f` in between touches cells `f-1` and `f`. -/
def mesh : Mesh where
  exterior_face_GID := fun bf => if bf = 0 then 100 else 104
  face_LID := fun gid => gid - 100
  face_get_cells := fun f =>
    if f = 0 then [0] else if f = 4 then [3]
    else if 0 < f ∧ f < 4 then [f.toNat - 1, f.toNat] else []

/-- A slope field with known cell values and a boundary-face component not yet filled. -/
def slope : CompositeVector :=
  ⟨[⟨"cell", ["slope"], [[1/10, 1/5, 3/10, 2/5]]⟩, ⟨"boundary_face", ["slope"], [[0, 0]]⟩]⟩

/-- An elevation field. -/
def elevation : CompositeVector := ⟨[⟨"cell", ["elevation"], [[1, 2, 3, 4]]⟩]⟩

/-- A field of one cell holding `x`. -/
def one_cell (x : ℚ) : CompositeVector := ⟨[⟨"cell", [""], [[x]]⟩]⟩

/-- A state in which no field is registered yet. -/
def empty_state : State := { time_ := 0, fields_ := [], data_ := fun _ => ⟨[]⟩ }

/-- The evaluator built with the "dynamic mesh" option on. -/
def dynamic_evaluator : Except Err ElevationEvaluator :=
  ElevationEvaluator.ctor [("dynamic mesh", ParameterEntry.bool true)] [] []

end Example

/-! ### Linear interpolation of cell vectors -/

/-- One vector of the Epetra operation `Update`: entry by entry
`ScalarThis*this + ScalarA*A + ScalarB*B`, over the entries of `this`. -/
def Epetra_Update_vector (ScalarA ScalarB ScalarThis : ℚ) : List ℚ → List ℚ → List ℚ → List ℚ
  | [], _, _ => []
  | x :: this, A, B =>
    (ScalarThis * x + ScalarA * A.headD 0 + ScalarB * B.headD 0) ::
      Epetra_Update_vector ScalarA ScalarB ScalarThis this A.tail B.tail

/-- The Epetra operation `this.Update(ScalarA, A, ScalarB, B, ScalarThis)`, which
sets `this = ScalarThis*this + ScalarA*A + ScalarB*B`, vector by vector. -/
def Epetra_Update (ScalarA : ℚ) (A : Epetra_MultiVector) (ScalarB : ℚ) (B : Epetra_MultiVector)
    (ScalarThis : ℚ) : Epetra_MultiVector → Epetra_MultiVector
  | [] => []
  | x :: this =>
    Epetra_Update_vector ScalarA ScalarB ScalarThis x (A.headD []) (B.headD []) ::
      Epetra_Update ScalarA A.tail ScalarB B.tail ScalarThis this

/-- The method `CoupledTransport_PK::InterpolateCellVector(v0, v1, dt_int, dt, v_int)`:
the new contents of `v_int`. -/
def CoupledTransport_PK.InterpolateCellVector (v0 v1 : Epetra_MultiVector) (dt_int dt : ℚ)
    (v_int : Epetra_MultiVector) : Epetra_MultiVector :=
  let a := dt_int / dt
  let b := 1 - a
  Epetra_Update b v0 a v1 0 v_int

/-- The two-child coupler of `Example.ready false` written out: surface child
first, both child pointers set by `Setup`. -/
def Example.two_domain : CoupledTransport_PK (List String) :=
  { sub_pks_ := [Example.child "surface" (1/2) false, Example.child "subsurface" (6/5) false]
    name_ := "surface subsurface transport"
    dt_ := 0
    vo_ := EVerbosityLevel.VERB_MEDIUM
    subsurface_name_ := "domain"
    surface_name_ := "surface"
    subsurf_id_ := some 1
    surf_id_ := some 0
    subsurf_pk_ := some (Example.child "subsurface" (6/5) false)
    surf_pk_ := some (Example.child "surface" (1/2) false)
    S_view := Example.S_view }

/-- The row of four cells with a wrong exterior-face map: boundary face 1 is
mapped to the interior face 2, which touches cells 1 and 2. -/
def Example.broken_mesh : Mesh :=
  { Example.mesh with exterior_face_GID := fun bf => if bf = 0 then 100 else 102 }

/-! ### The Richards kernel: closure laws, gravity and diffusion -/

/-- The write `cv(name, i) = x`: entry `i` of degree of freedom 0 of a component. -/
def CompositeVector.set_entry (cv : CompositeVector) (name : String) (i : Nat) (x : ℚ) :
    CompositeVector :=
  cv.SetComponent name (mv_set ((cv.ViewComponent name).getD []) 0 i x)

/-- Modelled from the spec: `GetFieldData(name, requester)` of the `State`
(declared outside the given sources), mutable access: it succeeds only if
the field is registered and the requester is its owner. -/
def State.GetFieldData_owner (S : State) (name pk_name : Key) : Except Err CompositeVector :=
  match S.field name with
  | none => Except.error (Err.Message "field not found")
  | some f =>
    if pk_name = f.owner_ then Except.ok (S.data_ name) else Except.error Err.OwnershipViolation

/-- An `AmanziGeometry::Point`: the coordinates. -/
abbrev Point := List ℚ

/-- The product `a * b` of two points: the dot product. -/
def Point.dot (a b : Point) : ℚ := (List.zipWith (fun x y => x * y) a b).sum

/-- The mesh queries the Richards methods make: the faces of a cell with
their directions, the normal of a face, the owned cells of a named region. -/
structure FlowMesh where
  /-- The query `cell_get_faces_and_dirs(c, &faces, &dirs)`: pairs `(faces[n], dirs[n])`. -/
  cell_get_faces_and_dirs : Nat → List (Nat × Int)
  /-- The query `face_normal(f)`. -/
  face_normal : Nat → Point
  /-- The query `get_set_entities(region, CELL, OWNED, &cells)`; `get_set_size` is its length. -/
  get_set_entities : String → List Nat

/-- A water retention model (`WRM`, declared outside the given sources): the
closure laws the Richards methods evaluate, functions of the capillary pressure. -/
structure WRM where
  saturation : ℚ → ℚ
  d_saturation : ℚ → ℚ
  k_relative : ℚ → ℚ

/-- The operator `Operators::MatrixMFD`: the elemental contributions
`Ff_cells()`, `Fc_cells()` and the rest of its data. -/
structure MatrixMFD (M : Type) where
  Ff_cells_ : List (List ℚ)
  Fc_cells_ : List ℚ
  rest : M

/-- The operator service: the methods of `Operators::MatrixMFD` that
`ApplyDiffusion_` calls (declared outside the given sources). -/
structure MatrixMFD_service (M : Type) where
  CreateMFDstiffnessMatrices : CompositeVector → MatrixMFD M → MatrixMFD M
  CreateMFDrhsVectors : MatrixMFD M → MatrixMFD M
  ApplyBoundaryConditions : List Nat → List ℚ → MatrixMFD M → MatrixMFD M
  AssembleGlobalMatrices : MatrixMFD M → MatrixMFD M
  /-- The call `ComputeNegativeResidual(pres, g)`: the new contents of `g`. -/
  ComputeNegativeResidual : MatrixMFD M → CompositeVector → CompositeVector → CompositeVector

/-- The calls `ApplyDiffusion_` makes on or for the operator. -/
inductive OperatorCall where
  | CreateMFDstiffnessMatrices
  | CreateMFDrhsVectors
  | AddGravityFluxes_
  | ApplyBoundaryConditions
  | AssembleGlobalMatrices
  | ComputeNegativeResidual
  deriving DecidableEq, Repr

/-- The outcome of `ApplyDiffusion_`: the state, the operator and the residual
it leaves, what it returned or how it failed, the operator calls in the order
made, and the two boundary values it prints. -/
structure ApplyDiffusionRun (M : Type) where
  S : State
  matrix : MatrixMFD M
  g : CompositeVector
  result : Except Err Unit
  calls : List OperatorCall
  out : List ℚ

namespace Richards

variable {M : Type}

/-- The loop of `Saturation_` over the owned cells of the region of one pair. -/
def Saturation_region (mesh : FlowMesh) (pres : CompositeVector) (p_atm : ℚ)
    (sat_liq : CompositeVector) (wrm : String × WRM) : CompositeVector :=
  let region := wrm.1
  let cells := mesh.get_set_entities region
  cells.foldl
    (fun sat c => sat.set_entry "cell" c (wrm.2.saturation (p_atm - pres.entry "cell" c)))
    sat_liq

/-- The method `Saturation_(S, pres, p_atm, sat_liq)`: the new contents of
`sat_liq`; `mesh` is `S->Mesh()`, `wrm_` the region/model pairs in order. -/
def Saturation_ (mesh : FlowMesh) (wrm_ : List (String × WRM)) (pres : CompositeVector)
    (p_atm : ℚ) (sat_liq : CompositeVector) : CompositeVector :=
  wrm_.foldl (Saturation_region mesh pres p_atm) sat_liq

/-- The value `outward_flux` of `AddGravityFluxes_` for cell `c` and its `n`-th
face; `K_ c v` is the product `K_[c] * v` of the cell's tensor with a point. -/
def outward_flux (mesh : FlowMesh) (K_ : Nat → Point → Point) (gravity : Point)
    (Krel rho : CompositeVector) (c n : Nat) : ℚ :=
  let f := ((mesh.cell_get_faces_and_dirs c).getD n (0, 0)).1
  let dir := ((mesh.cell_get_faces_and_dirs c).getD n (0, 0)).2
  let normal := mesh.face_normal f
  Point.dot (K_ c gravity) normal * dir * Krel.entry "face" f * Krel.entry "cell" c
    * rho.entry "cell" c

/-- The rounds `n = 0, ..., k-1` of the face loop of `AddGravityFluxes_` on the
pair `(Ff, Fc)` of a cell, `flux n` being the outward flux of round `n`. -/
def AddGravityFluxes_faces (flux : Nat → ℚ) : Nat → List ℚ × ℚ → List ℚ × ℚ
  | 0, s => s
  | k + 1, s =>
    ((AddGravityFluxes_faces flux k s).1.set k
        ((AddGravityFluxes_faces flux k s).1.getD k 0 + flux k),
      (AddGravityFluxes_faces flux k s).2 - flux k)

/-- The body of the cell loop of `AddGravityFluxes_` for cell `c`. -/
def AddGravityFluxes_cell (mesh : FlowMesh) (K_ : Nat → Point → Point) (gravity : Point)
    (Krel rho : CompositeVector) (matrix : MatrixMFD M) (c : Nat) : MatrixMFD M :=
  let nfaces := (mesh.cell_get_faces_and_dirs c).length
  let Ff := matrix.Ff_cells_.getD c []
  let Fc := matrix.Fc_cells_.getD c 0
  let r := AddGravityFluxes_faces (outward_flux mesh K_ gravity Krel rho c) nfaces (Ff, Fc)
  { matrix with Ff_cells_ := matrix.Ff_cells_.set c r.1, Fc_cells_ := matrix.Fc_cells_.set c r.2 }

/-- The rounds `c = 0, ..., k-1` of the cell loop of `AddGravityFluxes_`, in order. -/
def AddGravityFluxes_loop (mesh : FlowMesh) (K_ : Nat → Point → Point) (gravity : Point)
    (Krel rho : CompositeVector) : Nat → MatrixMFD M → MatrixMFD M
  | 0, matrix => matrix
  | k + 1, matrix =>
    AddGravityFluxes_cell mesh K_ gravity Krel rho
      (AddGravityFluxes_loop mesh K_ gravity Krel rho k matrix) k

/-- The method `AddGravityFluxes_(S, matrix)`: the operator it leaves; `mesh` is
`S->Mesh()` and `g_vec` the constant vector "gravity" of the state. -/
def AddGravityFluxes_ (mesh : FlowMesh) (K_ : Nat → Point → Point) (g_vec : Point) (S : State)
    (matrix : MatrixMFD M) : MatrixMFD M :=
  let rho := S.GetFieldData "density_liquid"
  let Krel := S.GetFieldData "rel_perm_faces"
  let gravity : Point := g_vec
  let c_owned := rho.size "cell"
  AddGravityFluxes_loop mesh K_ gravity Krel rho c_owned matrix

/-- The method `ApplyDiffusion_(S, g)`.  `UpdatePermeabilityData_` is the method
of the kernel defined outside this file; `matrix_`, `bc_markers_`,
`bc_values_` and `K_` are members of the kernel.  The line that prints
`bc_values_[3]` and `bc_values_[5]` indexes the vector unchecked: with fewer
than six entries the read is outside the vector and the call ends there, after
`AddGravityFluxes_` and before `ApplyBoundaryConditions`. -/
def ApplyDiffusion_ (ops : MatrixMFD_service M) (UpdatePermeabilityData_ : State → State)
    (mesh : FlowMesh) (K_ : Nat → Point → Point) (g_vec : Point) (bc_markers_ : List Nat)
    (bc_values_ : List ℚ) (S : State) (matrix_ : MatrixMFD M) (g : CompositeVector) :
    ApplyDiffusionRun M :=
  let S1 := UpdatePermeabilityData_ S
  match S1.GetFieldData_owner "numerical_rel_perm" "flow" with
  | Except.error e =>
    { S := S1, matrix := matrix_, g := g, result := Except.error e, calls := [], out := [] }
  | Except.ok rel_perm =>
    let m1 := ops.CreateMFDstiffnessMatrices rel_perm matrix_
    let m2 := ops.CreateMFDrhsVectors m1
    let m3 := AddGravityFluxes_ mesh K_ g_vec S1 m2
    match bc_values_[3]?, bc_values_[5]? with
    | some b3, some b5 =>
      let out := [b3, b5]
      let m4 := ops.ApplyBoundaryConditions bc_markers_ bc_values_ m3
      let m5 := ops.AssembleGlobalMatrices m4
      let pres := S1.GetFieldData "pressure"
      { S := S1, matrix := m5, g := ops.ComputeNegativeResidual m5 pres g, result := Except.ok (),
        calls := [OperatorCall.CreateMFDstiffnessMatrices, OperatorCall.CreateMFDrhsVectors,
          OperatorCall.AddGravityFluxes_, OperatorCall.ApplyBoundaryConditions,
          OperatorCall.AssembleGlobalMatrices, OperatorCall.ComputeNegativeResidual],
        out := out }
    | _, _ =>
      { S := S1, matrix := m3, g := g, result := Except.error Err.OutOfRange,
        calls := [OperatorCall.CreateMFDstiffnessMatrices, OperatorCall.CreateMFDrhsVectors,
          OperatorCall.AddGravityFluxes_],
        out := [] }

end Richards

/-! ### A concrete flow set-up -/

namespace Example

/-- A column of two cells 0 (below) and 1 (above) between faces 0, 1, 2 in one
space dimension; every face normal points up; region "bottom" is cell 0. -/
def flow_mesh : FlowMesh where
  cell_get_faces_and_dirs := fun c =>
    if c = 0 then [(0, -1), (1, 1)] else if c = 1 then [(1, -1), (2, 1)] else []
  face_normal := fun _ => [1]
  get_set_entities := fun region => if region = "bottom" then [0] else []

/-- The absolute permeability: the tensor of every cell doubles a vector. -/
def K_ (_ : Nat) (v : Point) : Point := v.map (fun x => 2 * x)

/-- A field with a cell and a face component. -/
def cell_face (cells faces : List ℚ) : CompositeVector :=
  ⟨[⟨"cell", [""], [cells]⟩, ⟨"face", [""], [faces]⟩]⟩

/-- A state of the two-cell column: liquid density 1 in both cells, relative
permeability 1 in the cells and 1, 1/2, 1/4 on the faces, pressure 3 and 5;
"numerical_rel_perm" is registered to the owner `owner`. -/
def flow_state (owner : String) : State where
  time_ := 0
  fields_ := [⟨"numerical_rel_perm", owner, FieldType.VECTOR_FIELD, true, true, true⟩]
  data_ := fun name =>
    if name = "density_liquid" then cell_face [1, 1] []
    else if name = "rel_perm_faces" then cell_face [1, 1] [1, 1/2, 1/4]
    else if name = "numerical_perm_faces" then cell_face [1, 1] [1, 1/2, 1/4]
    else if name = "pressure" then cell_face [3, 5] []
    else cell_face [0, 0] [0, 0, 0]

/-- An operator service that records, in the rest of the operator, the name
of each call together with the cell contributions `Fc_cells()` it found. -/
def recording_service : MatrixMFD_service (List (String × List ℚ)) where
  CreateMFDstiffnessMatrices := fun _ m => { m with rest := m.rest ++ [("stiffness", m.Fc_cells_)] }
  CreateMFDrhsVectors := fun m =>
    { Ff_cells_ := [[0, 0], [0, 0]], Fc_cells_ := [0, 0], rest := m.rest ++ [("rhs", m.Fc_cells_)] }
  ApplyBoundaryConditions := fun _ _ m => { m with rest := m.rest ++ [("bc", m.Fc_cells_)] }
  AssembleGlobalMatrices := fun m => { m with rest := m.rest ++ [("assemble", m.Fc_cells_)] }
  ComputeNegativeResidual := fun _ _ g => g

end Example

/-- The model of the last pair of `wrm_` whose region contains cell `c`, if
there is one: the law whose value `Saturation_` leaves at `c`. -/
def Richards.last_law (mesh : FlowMesh) : List (String × WRM) → Nat → Option WRM
  | [], _ => none
  | wrm :: rest, c =>
    match Richards.last_law mesh rest c with
    | some w => some w
    | none => if c ∈ mesh.get_set_entities wrm.1 then some wrm.2 else none

/-- A retention model: saturation `1/(1 + pc)`. -/
def Example.wrm : WRM where
  saturation := fun pc => 1 / (1 + pc)
  d_saturation := fun pc => -1 / ((1 + pc) * (1 + pc))
  k_relative := fun pc => 1 / (1 + pc)

/-! ### Initialization of a field from a parameter list -/

namespace ParameterList

/-- The method `isParameter(name)`. -/
def isParameter (p : ParameterList) (name : String) : Bool := (p.lookup name).isSome

/-- The template `get<double>(name)`: no default, a missing entry or one of another type throws. -/
def get_double (p : ParameterList) (name : String) : Except Err ℚ :=
  match p.lookup name with
  | some (ParameterEntry.double d) => Except.ok d
  | _ => Except.error Err.InvalidParameterType

/-- The template `get<int>(name)`: no default, a missing entry or one of another type throws. -/
def get_int (p : ParameterList) (name : String) : Except Err Int :=
  match p.lookup name with
  | some (ParameterEntry.int i) => Except.ok i
  | _ => Except.error Err.InvalidParameterType

end ParameterList

namespace CompositeVector

/-- The method `names()`. -/
def names (cv : CompositeVector) : List String := cv.components.map (fun c => c.name)

/-- The method `num_dofs()`: the number of vectors of each component. -/
def num_dofs (cv : CompositeVector) : List Nat := cv.components.map (fun c => c.view.length)

/-- The method `num_components()`. -/
def num_components (cv : CompositeVector) : Nat := cv.components.length

/-- The method `subfield_names()`. -/
def subfield_names (cv : CompositeVector) : List (List String) :=
  cv.components.map (fun c => c.subfield_names)

/-- The vectors of a component with every entry of vector `j` set to `vals[j]`. -/
def put_scalar : Epetra_MultiVector → List ℚ → Epetra_MultiVector
  | [], _ => []
  | v :: vs, vals => v.map (fun _ => vals.headD 0) :: put_scalar vs vals.tail

/-- The vectors of a component with the entries of the entities `ents` of
vector `j` set to `vals[j]`. -/
def put_scalar_block (ents : List Nat) : Epetra_MultiVector → List ℚ → Epetra_MultiVector
  | [], _ => []
  | v :: vs, vals =>
    ents.foldl (fun col i => col.set i (vals.headD 0)) v :: put_scalar_block ents vs vals.tail

/-- The method `PutScalar(name, vals)`: one constant per degree of freedom. -/
def PutScalar (cv : CompositeVector) (name : String) (vals : List ℚ) : CompositeVector :=
  cv.SetComponent name (put_scalar ((cv.ViewComponent name).getD []) vals)

/-- The method `PutScalar(name, mesh_block_id, vals)`: one constant per degree
of freedom on the entities of a mesh block; `ents` are those entities. -/
def PutScalar_block (cv : CompositeVector) (name : String) (ents : List Nat) (vals : List ℚ) :
    CompositeVector :=
  cv.SetComponent name (put_scalar_block ents ((cv.ViewComponent name).getD []) vals)

end CompositeVector

/-- What the mesh-block loop of `Field_CV::Initialize` carries from round to
round: the field, the object `*data_`, the values `vals`, the flag `got_a_block`. -/
structure InitializeState where
  field : Field_CV
  data : CompositeVector
  vals : List (List ℚ)
  got_a_block : Bool

namespace Field_CV

/-- Modelled from the spec: `Field::set_initialized` (defined with the base
class, outside the given sources) sets the `initialized` flag. -/
def set_initialized (f : Field_CV) : Field_CV := { f with initialized_ := true }

/-- The inner loop `for (lcv_dof ...)` of `Initialize` for one component, from
degree of freedom `lcv_dof` on with `remaining` still to visit: whether no
`break` happened, and the values of the component. -/
def Initialize_dofs (plist : ParameterList) (subfield_names_i : List String) :
    Nat → Nat → List ℚ → Except Err (Bool × List ℚ)
  | 0, _, vals_i => Except.ok (true, vals_i)
  | remaining + 1, lcv_dof, vals_i =>
    let subname := subfield_names_i.getD lcv_dof ""
    if subname ≠ "" ∧ plist.isParameter ("Constant " ++ subname) = true then
      match plist.get_double ("Constant " ++ subname) with
      | Except.error e => Except.error e
      | Except.ok v => Initialize_dofs plist subfield_names_i remaining (lcv_dof + 1)
          (vals_i.set lcv_dof v)
    else Except.ok (false, vals_i)

/-- The outer loop `for (lcv_component ...)` of `Initialize` over the components
still to visit (their subfield names and numbers of degrees of freedom):
the value of `got_them_all` and the values `vals`. -/
def Initialize_components (plist : ParameterList) :
    List (List String × Nat) → Nat → List (List ℚ) → Except Err (Bool × List (List ℚ))
  | [], _, vals => Except.ok (true, vals)
  | (subfield_names_i, num_dofs_i) :: rest, lcv_component, vals =>
    match Initialize_dofs plist subfield_names_i num_dofs_i 0 (vals.getD lcv_component []) with
    | Except.error e => Except.error e
    | Except.ok (found, vals_i) =>
      match Initialize_components plist rest (lcv_component + 1)
          (vals.set lcv_component vals_i) with
      | Except.error e => Except.error e
      | Except.ok (found_rest, vals1) => Except.ok (found && found_rest, vals1)

/-- The loop `data_->PutScalar(component_names[i], vals[i])` over the components
still to visit. -/
def Initialize_assign : List String → Nat → List (List ℚ) → CompositeVector → CompositeVector
  | [], _, _, data => data
  | name :: names, lcv_component, vals, data =>
    Initialize_assign names (lcv_component + 1) vals
      (data.PutScalar name (vals.getD lcv_component []))

/-- The loop `data_->PutScalar(component_names[i], mesh_block_id, vals[i])` over the
components still to visit; `ents name` are the entities of the block in
the component. -/
def Initialize_assign_block (ents : String → List Nat) :
    List String → Nat → List (List ℚ) → CompositeVector → CompositeVector
  | [], _, _, data => data
  | name :: names, lcv_component, vals, data =>
    Initialize_assign_block ents names (lcv_component + 1) vals
      (data.PutScalar_block name (ents name) (vals.getD lcv_component []))

/-- Round `nb` of the mesh-block loop of `Initialize`; `block_entities name id`
are the entities of mesh block `id` in component `name`. -/
def Initialize_block (block_entities : String → Int → List Nat) (plist : ParameterList)
    (s : InitializeState) (nb : Nat) : Call InitializeState Unit :=
  match plist.sublist ("Mesh block " ++ toString nb) with
  | Except.error e => { state := s, result := Except.error e }
  | Except.ok sublist =>
    match sublist.get_int "Mesh block ID" with
    | Except.error e => { state := s, result := Except.error e }
    | Except.ok mesh_block_id =>
      match Initialize_components plist (s.data.subfield_names.zip s.data.num_dofs) 0 s.vals with
      | Except.error e => { state := s, result := Except.error e }
      | Except.ok (got_them_all, vals) =>
        if s.got_a_block = true ∧ got_them_all = false then
          { state := { s with vals := vals },
            result := Except.error (Err.Message ("Field " ++ s.field.fieldname_
              ++ "initialized at least one, but not all mesh block.")) }
        else if got_them_all = true then
          { state :=
              { field := s.field.set_initialized,
                data := Initialize_assign_block (fun name => block_entities name mesh_block_id)
                  s.data.names 0 vals s.data,
                vals := vals, got_a_block := true },
            result := Except.ok () }
        else
          { state := { s with vals := vals, field := s.field.set_initialized },
            result := Except.ok () }

/-- The rounds `nb = 1, ..., n` of the mesh-block loop of `Initialize`, in order. -/
def Initialize_blocks (block_entities : String → Int → List Nat) (plist : ParameterList) :
    Nat → InitializeState → Call InitializeState Unit
  | 0, s => { state := s, result := Except.ok () }
  | n + 1, s =>
    match (Initialize_blocks block_entities plist n s).result with
    | Except.error e =>
      { state := (Initialize_blocks block_entities plist n s).state, result := Except.error e }
    | Except.ok _ =>
      Initialize_block block_entities plist (Initialize_blocks block_entities plist n s).state
        (n + 1)

/-- The method `Initialize(plist)`; the object of the call is the field together
with the store its handle refers into.  What it writes to `std::cout` is left out. -/
def Initialize (block_entities : String → Int → List Nat) (f : Field_CV) (store : Store)
    (plist : ParameterList) : Call (Field_CV × Store) Unit :=
  match f.data_ with
  | none => { state := (f, store), result := Except.error Err.NullReference }
  | some h =>
    let data := store h
    let vals0 : List (List ℚ) := data.num_dofs.map (fun n => List.replicate n 0)
    match Initialize_components plist (data.subfield_names.zip data.num_dofs) 0 vals0 with
    | Except.error e => { state := (f, store), result := Except.error e }
    | Except.ok (got_them_all, vals) =>
      let s1 : InitializeState :=
        if got_them_all = true then
          { field := f.set_initialized, data := Initialize_assign data.names 0 vals data,
            vals := vals, got_a_block := false }
        else { field := f, data := data, vals := vals, got_a_block := false }
      if plist.isParameter "Number of mesh blocks" = true then
        match plist.get_int "Number of mesh blocks" with
        | Except.error e =>
          { state := (s1.field, Function.update store h s1.data), result := Except.error e }
        | Except.ok num_blocks =>
          { state := ((Initialize_blocks block_entities plist num_blocks.toNat s1).state.field,
              Function.update store h
                (Initialize_blocks block_entities plist num_blocks.toNat s1).state.data),
            result := (Initialize_blocks block_entities plist num_blocks.toNat s1).result }
      else { state := (s1.field, Function.update store h s1.data), result := Except.ok () }

end Field_CV

/-- A parameter list that announces one mesh block, with its sublist and
block id, and gives no "Constant ..." value at all. -/
def Example.blocks_without_constants : ParameterList :=
  [("Number of mesh blocks", ParameterEntry.int 1),
   ("Mesh block 1", ParameterEntry.sublist [("Mesh block ID", ParameterEntry.int 7)])]

/-- A field "pressure" owned by "flow", not initialized, whose handle 0 refers
to a vector with one component "cell", one degree of freedom "p", two cells. -/
def Example.pressure_field : Field_CV :=
  Field_CV.ctor_data ⟨"pressure", "flow", FieldType.NULL_FIELD_TYPE, true, true, false⟩ (some 0)

/-- The store of the example: every handle refers to the vector with cell values 1 and 2. -/
def Example.pressure_store : Store := fun _ => ⟨[⟨"cell", ["p"], [[1, 2]]⟩]⟩

/-! ## Theorems -/

namespace Field_CV

theorem assert_owner_or_die_ok (f : Field_CV) : f.assert_owner_or_die_ f.owner_ = Except.ok () := by
  simp [assert_owner_or_die_]

theorem assert_owner_or_die_error (f : Field_CV) (r : String) (h : r ≠ f.owner_) :
    f.assert_owner_or_die_ r = Except.error Err.OwnershipViolation := by
  simp [assert_owner_or_die_, h]

/-- C1 (the part of the claim the code breaks): the owner of a field built by
`Field_CV(fieldname, owner)`, whose handle is still empty, calls the by-value
`SetData`; the ownership check passes and the call fails all the same, on
the dereference of the empty handle. -/
theorem C1_owner_by_value_fails_on_empty_handle :
    (ctor ⟨"pressure", "flow", FieldType.NULL_FIELD_TYPE, true, true, false⟩).owner_ = "flow" ∧
    ((ctor ⟨"pressure", "flow", FieldType.NULL_FIELD_TYPE, true, true, false⟩).SetData_CompositeVector
        (fun _ => ⟨[]⟩) "flow" ⟨[⟨"cell", ["p"], [[1, 2]]⟩]⟩).result
      = Except.error Err.NullReference := by
  constructor <;> rfl

/-- C1 (amended): for every field with owner `o` and every requester `r`, each
of `GetFieldData(r)`, `SetData(r, handle)` and `SetData(r, value)` fails with the
ownership error if and only if `r ≠ o`; when `r = o`, `GetFieldData` returns the
handle, `SetData(r, handle)` succeeds, and `SetData(r, value)` succeeds exactly
when the field's handle is not empty. -/
theorem C1_owner_gate (f : Field_CV) (store : Store) (r : String) (h : RCP)
    (d : CompositeVector) :
    ((f.GetFieldData r).result = Except.error Err.OwnershipViolation ↔ r ≠ f.owner_) ∧
    ((f.SetData_RCP r h).result = Except.error Err.OwnershipViolation ↔ r ≠ f.owner_) ∧
    ((f.SetData_CompositeVector store r d).result = Except.error Err.OwnershipViolation
        ↔ r ≠ f.owner_) ∧
    (r = f.owner_ →
      (f.GetFieldData r).result = Except.ok f.data_ ∧
      (f.SetData_RCP r h).result = Except.ok () ∧
      ((f.SetData_CompositeVector store r d).result = Except.ok () ↔ f.data_ ≠ none)) := by
  by_cases hr : r = f.owner_
  · subst hr
    cases hd : f.data_ <;>
      simp [GetFieldData, SetData_RCP, SetData_CompositeVector, assert_owner_or_die_ok, hd]
  · simp [GetFieldData, SetData_RCP, SetData_CompositeVector,
      assert_owner_or_die_error f r hr, hr]

/-- C2: on a field whose data is allocated, after the owner calls `SetData` a
read returns what was written (by handle: the very handle passed in; by
value: contents equal to the value), and a `SetData` call by a non-owner
leaves the field (name, owner, flags, handle) and the stored data as they were. -/
theorem C2_owner_write_visible (f : Field_CV) (store : Store) (hf : f.data_ ≠ none) :
    (∀ h : RCP,
      (f.SetData_RCP f.owner_ h).result = Except.ok () ∧
      (f.SetData_RCP f.owner_ h).state.GetFieldData_const = h ∧
      (f.SetData_RCP f.owner_ h).state.read store = h.map store) ∧
    (∀ d : CompositeVector,
      (f.SetData_CompositeVector store f.owner_ d).result = Except.ok () ∧
      (f.SetData_CompositeVector store f.owner_ d).state.1.read
        (f.SetData_CompositeVector store f.owner_ d).state.2 = some d) ∧
    (∀ (r : String) (h : RCP) (d : CompositeVector), r ≠ f.owner_ →
      (f.SetData_RCP r h).state = f ∧
      (f.SetData_CompositeVector store r d).state = (f, store)) := by
  obtain ⟨a, ha⟩ := Option.ne_none_iff_exists'.mp hf
  refine ⟨fun h => ?_, fun d => ?_, fun r h d hr => ?_⟩
  · simp [SetData_RCP, assert_owner_or_die_ok, GetFieldData_const, read]
  · simp [SetData_CompositeVector, assert_owner_or_die_ok, ha, GetFieldData_const, read]
  · simp [SetData_RCP, SetData_CompositeVector, assert_owner_or_die_error f r hr]

/-- C2 at a concrete field: owner "flow", handle 0. -/
theorem C2_owner_write_visible_witness :
    (ctor_data ⟨"pressure", "flow", FieldType.NULL_FIELD_TYPE, true, true, false⟩ (some 0)).data_
      ≠ none ∧
    ((ctor_data ⟨"pressure", "flow", FieldType.NULL_FIELD_TYPE, true, true, false⟩
        (some 0)).SetData_CompositeVector (fun _ => ⟨[]⟩) "flow"
        ⟨[⟨"cell", ["p"], [[1, 2]]⟩]⟩).state.1.read
      ((ctor_data ⟨"pressure", "flow", FieldType.NULL_FIELD_TYPE, true, true, false⟩
        (some 0)).SetData_CompositeVector (fun _ => ⟨[]⟩) "flow"
        ⟨[⟨"cell", ["p"], [[1, 2]]⟩]⟩).state.2
      = some ⟨[⟨"cell", ["p"], [[1, 2]]⟩]⟩ :=
  ⟨by simp [ctor_data],
   ((C2_owner_write_visible
      (ctor_data ⟨"pressure", "flow", FieldType.NULL_FIELD_TYPE, true, true, false⟩ (some 0))
      (fun _ => ⟨[]⟩) (by simp [ctor_data])).2.1 ⟨[⟨"cell", ["p"], [[1, 2]]⟩]⟩).2⟩

end Field_CV

namespace CoupledTransport_PK

variable {W : Type}

theorem std_min_eq_min (a b : ℚ) : std_min a b = min a b := by
  unfold std_min
  rcases lt_or_le b a with h | h
  · rw [if_pos h, min_eq_right h.le]
  · rw [if_neg (not_lt.mpr h), min_eq_left h]

/-- C3 (the code at the failing input): two children, surface first, after
`Setup`; the surface child's `AdvanceStep` reports failure (`true`), and the
coupler's `AdvanceStep` still invokes the subsurface child's `AdvanceStep`
and returns `false` (no failure). -/
theorem C3_AdvanceStep_ignores_child_failure :
    ∃ pk surf, Example.ready true = Except.ok pk ∧ pk.surf_pk_ = some surf ∧
      (surf.AdvanceStep 0 1 false ["surface mixed"]).1 = true ∧
      (pk.AdvanceStep [] 0 1 false).result = Except.ok false ∧
      (pk.AdvanceStep [] 0 1 false).calls =
        [ChildCall.MixingSolutesWthSources Child.surf_pk_ 0 1,
         ChildCall.AdvanceStep Child.surf_pk_ 0 1 false,
         ChildCall.AdvanceStep Child.subsurf_pk_ 0 1 false] ∧
      (pk.AdvanceStep [] 0 1 false).state.2 =
        ["surface mixed", "surface advanced", "subsurface advanced"] := by
  refine ⟨_, _, rfl, rfl, rfl, ?_, ?_, ?_⟩ <;> rfl

/-- C4 (the claim fails for three children): children proposing 1/2, 6/5 and
3/10 in that order, the first on "surface", the second on "domain"; `get_dt`
returns 1/2 and not 3/10. -/
theorem C4_get_dt_three_children :
    ∃ pk, Example.coupler3 = Except.ok pk ∧ pk.sub_pks_.map (fun c => c.get_dt []) = [1/2, 6/5, 3/10] ∧
      (pk.get_dt []).result = Except.ok (1/2) ∧ (1/2 : ℚ) ≠ 3/10 := by
  refine ⟨_, rfl, rfl, ?_, by norm_num⟩
  simp [get_dt, sub_pk, std_min, Example.child, set_dt]
  norm_num

/-- C4 (amended): for every coupler built by the constructor over children
`c0, c1, ...` of which exactly one of the first two is declared on "domain",
`get_dt` returns the minimum of the step sizes proposed by `c0` and `c1`; this
is the minimum over all children when there are exactly two, and children
after the second are not consulted. -/
theorem C4_get_dt_min_of_first_two (plist_ global_list : ParameterList)
    (c0 c1 : Transport_PK_ATS W) (rest : List (Transport_PK_ATS W)) (dt : ℚ)
    (vo : EVerbosityLevel) (S_view : W → String → String → String → Except Err Epetra_MultiVector)
    (pk_order : List String) (d0 d1 : String) (w : W)
    (horder : plist_.get_array_string "PKs order" = Except.ok pk_order)
    (h0 : ctor_dom_name pk_order global_list 0 = Except.ok d0)
    (h1 : ctor_dom_name pk_order global_list 1 = Except.ok d1)
    (hdom : (d0 = "domain" ∧ d1 ≠ "domain") ∨ (d0 ≠ "domain" ∧ d1 = "domain")) :
    ∃ pk, ctor plist_ global_list (c0 :: c1 :: rest) dt vo S_view = Except.ok pk ∧
      (pk.get_dt w).result = Except.ok (min (c0.get_dt w) (c1.get_dt w)) := by
  rcases hdom with ⟨e0, e1⟩ | ⟨e0, e1⟩
  · refine ⟨_, by simp only [ctor, horder, ctor_round, h0, h1, e0, if_true, if_neg e1]; rfl, ?_⟩
    simp [get_dt, sub_pk, std_min_eq_min, min_comm]
  · refine ⟨_, by simp only [ctor, horder, ctor_round, h0, h1, e1, if_true, if_neg e0]; rfl, ?_⟩
    simp [get_dt, sub_pk, std_min_eq_min]

/-- C4 (amended) at two children proposing 1/2 and 6/5. -/
theorem C4_get_dt_min_of_first_two_witness :
    ∃ pk, Example.coupler2 false = Except.ok pk ∧
      (pk.get_dt []).result = Except.ok (min (1/2) (6/5)) :=
  C4_get_dt_min_of_first_two
    [("PKs order", ParameterEntry.array_string ["surface transport", "subsurface transport"])]
    Example.global_list (Example.child "surface" (1/2) false) (Example.child "subsurface" (6/5) false)
    [] 0 EVerbosityLevel.VERB_MEDIUM Example.S_view
    ["surface transport", "subsurface transport"] "surface" "domain" [] rfl rfl rfl
    (Or.inr ⟨by decide, rfl⟩)

end CoupledTransport_PK

theorem getD_set (a : List ℚ) (i k : Nat) (x : ℚ) :
    (a.set i x).getD k 0 = if k = i ∧ i < a.length then x else a.getD k 0 := by
  simp only [List.getD_eq_getElem?_getD, List.getElem?_set]
  by_cases h : i = k
  · subst h
    by_cases h2 : i < a.length
    · simp [h2]
    · simp [h2]
      rw [List.getElem?_eq_none (by omega)]
      rfl
  · have : ¬ k = i := fun e => h e.symm
    simp [h, this]

theorem MyLength_mv_set (v : Epetra_MultiVector) (i : Nat) (x : ℚ) :
    MyLength (mv_set v 0 i x) = MyLength v := by
  cases v with
  | nil => rfl
  | cons a rest => simp [mv_set, MyLength]

theorem mv_get_mv_set (v : Epetra_MultiVector) (i k : Nat) (x : ℚ) :
    mv_get (mv_set v 0 i x) 0 k = if k = i ∧ i < MyLength v then x else mv_get v 0 k := by
  cases v with
  | nil => simp [mv_set, mv_get, MyLength]
  | cons a rest => simpa [mv_set, mv_get, MyLength] using getD_set a i k x

theorem findView_setView_same (name : String) (v : Epetra_MultiVector) (cs : List CVComponent) :
    findView name (setView name v cs) = (findView name cs).map (fun _ => v) := by
  induction cs with
  | nil => rfl
  | cons c cs ih =>
    by_cases h : c.name = name
    · simp [findView, setView, h]
    · simp [findView, setView, h, ih]

theorem findView_setView_other (name other : String) (h : other ≠ name) (v : Epetra_MultiVector)
    (cs : List CVComponent) : findView other (setView name v cs) = findView other cs := by
  induction cs with
  | nil => rfl
  | cons c cs ih =>
    by_cases hc : c.name = name
    · have hne : ¬ c.name = other := fun e => h (e.symm.trans hc)
      have hne2 : ¬ name = other := fun e => h e.symm
      simp [findView, setView, hc, hne2]
    · simp only [setView, hc, if_false, findView, ih]

namespace ElevationEvaluator

variable {W : Type}

theorem bf_loop_ok (mesh : Mesh) (slope_c slope_bf : Epetra_MultiVector) (n : Nat)
    (hmesh : ∀ bf, bf < n →
      (mesh.face_get_cells (mesh.face_LID (mesh.exterior_face_GID bf))).length = 1) :
    ∃ v, bf_loop mesh slope_c n slope_bf = Except.ok v ∧ MyLength v = MyLength slope_bf ∧
      (∀ bf, bf < n → bf < MyLength slope_bf →
        mv_get v 0 bf = mv_get slope_c 0
          ((mesh.face_get_cells (mesh.face_LID (mesh.exterior_face_GID bf))).headD 0)) ∧
      (∀ bf, n ≤ bf → mv_get v 0 bf = mv_get slope_bf 0 bf) := by
  induction n with
  | zero => exact ⟨slope_bf, rfl, rfl, fun bf h => absurd h (Nat.not_lt_zero bf), fun _ _ => rfl⟩
  | succ n ih =>
    obtain ⟨v, hv, hlen, hdone, hrest⟩ := ih (fun bf h => hmesh bf (Nat.lt_succ_of_lt h))
    have hn := hmesh n (Nat.lt_succ_self n)
    refine ⟨_, by simp only [bf_loop, hv, bf_round, hn, if_true]; rfl, ?_, ?_, ?_⟩
    · rw [MyLength_mv_set, hlen]
    · intro bf hbf hb
      rw [mv_get_mv_set]
      by_cases e : bf = n
      · subst e
        simp [hlen, hb]
      · have : bf < n := by omega
        simp [e, hdone bf this hb]
    · intro bf hbf
      rw [mv_get_mv_set]
      have e : ¬ bf = n := by omega
      simp [e, hrest bf (by omega)]

/-- C8: when the slope field carries a boundary_face component (and its cell
component) and every boundary face has exactly one adjacent cell,
`EvaluateField_` returns, leaves the cell component as
`EvaluateElevationAndSlope_` computed it, and the boundary_face value at every
boundary face `bf` equals the cell value of the one cell adjacent to the
face that `bf` maps to. -/
theorem C8_boundary_face_slopes
    (EvaluateElevationAndSlope_ : W → CompositeVector × CompositeVector →
      CompositeVector × CompositeVector)
    (mesh : Mesh) (S : W) (results : CompositeVector × CompositeVector)
    (slope_bf slope_c : Epetra_MultiVector)
    (hbf : (EvaluateElevationAndSlope_ S results).2.ViewComponent "boundary_face" = some slope_bf)
    (hc : (EvaluateElevationAndSlope_ S results).2.ViewComponent "cell" = some slope_c)
    (hmesh : ∀ bf, bf < MyLength slope_bf →
      (mesh.face_get_cells (mesh.face_LID (mesh.exterior_face_GID bf))).length = 1) :
    ∃ out out_bf, EvaluateField_ EvaluateElevationAndSlope_ mesh S results = Except.ok out ∧
      out.1 = (EvaluateElevationAndSlope_ S results).1 ∧
      out.2.ViewComponent "cell" = some slope_c ∧
      out.2.ViewComponent "boundary_face" = some out_bf ∧
      MyLength out_bf = MyLength slope_bf ∧
      ∀ bf, bf < MyLength slope_bf →
        ∃ c, mesh.face_get_cells (mesh.face_LID (mesh.exterior_face_GID bf)) = [c] ∧
          mv_get out_bf 0 bf = mv_get slope_c 0 c := by
  obtain ⟨v, hv, hlen, hdone, -⟩ := bf_loop_ok mesh slope_c slope_bf (MyLength slope_bf) hmesh
  have hhas : (EvaluateElevationAndSlope_ S results).2.has_component "boundary_face" = true := by
    have h := hbf
    simp only [CompositeVector.ViewComponent] at h
    simp [CompositeVector.has_component, h]
  refine ⟨((EvaluateElevationAndSlope_ S results).1,
    (EvaluateElevationAndSlope_ S results).2.SetComponent "boundary_face" v), v, ?_, rfl, ?_, ?_,
    hlen, ?_⟩
  · simp only [EvaluateField_, hhas, if_true, hbf, hc, hv]
  · have h := hc
    simp only [CompositeVector.ViewComponent] at h
    simp only [CompositeVector.ViewComponent, CompositeVector.SetComponent]
    rw [findView_setView_other "boundary_face" "cell" (by decide), h]
  · have h := hbf
    simp only [CompositeVector.ViewComponent] at h
    simp only [CompositeVector.ViewComponent, CompositeVector.SetComponent]
    rw [findView_setView_same, h]
    rfl
  · intro bf hb
    obtain ⟨c, hcell⟩ := List.length_eq_one.mp (hmesh bf hb)
    refine ⟨c, hcell, ?_⟩
    rw [hdone bf hb hb, hcell]
    rfl

theorem Example_mesh_one_cell : ∀ bf, bf < 2 → (Example.mesh.face_get_cells
    (Example.mesh.face_LID (Example.mesh.exterior_face_GID bf))).length = 1 := by
  intro bf hb
  interval_cases bf <;> rfl

/-- C8 on a mesh of four cells and two boundary faces with cell slopes 1/10,
1/5, 3/10, 2/5: the boundary values become 1/10 (cell 0) and 2/5 (cell 3). -/
theorem C8_boundary_face_slopes_witness :
    (∀ bf, bf < 2 → (Example.mesh.face_get_cells
        (Example.mesh.face_LID (Example.mesh.exterior_face_GID bf))).length = 1) ∧
    EvaluateField_ (fun (_ : Unit) r => r) Example.mesh () (Example.elevation, Example.slope)
      = Except.ok (Example.elevation,
          ⟨[⟨"cell", ["slope"], [[1/10, 1/5, 3/10, 2/5]]⟩,
            ⟨"boundary_face", ["slope"], [[1/10, 2/5]]⟩]⟩) ∧
    ∃ out out_bf,
      EvaluateField_ (fun (_ : Unit) r => r) Example.mesh () (Example.elevation, Example.slope)
        = Except.ok out ∧
      out.1 = Example.elevation ∧
      out.2.ViewComponent "cell" = some [[1/10, 1/5, 3/10, 2/5]] ∧
      out.2.ViewComponent "boundary_face" = some out_bf ∧
      MyLength out_bf = 2 ∧
      ∀ bf, bf < 2 →
        ∃ c, Example.mesh.face_get_cells
            (Example.mesh.face_LID (Example.mesh.exterior_face_GID bf)) = [c] ∧
          mv_get out_bf 0 bf = mv_get [[1/10, 1/5, 3/10, 2/5]] 0 c :=
  ⟨Example_mesh_one_cell, rfl,
   C8_boundary_face_slopes (fun (_ : Unit) r => r) Example.mesh ()
    (Example.elevation, Example.slope) [[0, 0]] [[1/10, 1/5, 3/10, 2/5]] rfl rfl
    Example_mesh_one_cell⟩

theorem ctor_updated_once (plist : ParameterList) (bk bd : List Key) (ev : ElevationEvaluator)
    (h : ctor plist bk bd = Except.ok ev) : ev.updated_once_ = false := by
  unfold ctor at h
  split at h
  · cases h
  · split at h
    · cases h
    · split at h
      · cases h
      · cases h
        rfl

theorem HasFieldChanged_seq_updated (base : SecondaryVariablesFieldEvaluator W)
    (ev : ElevationEvaluator) (hev : ev.updated_once_ = true) (requests : List Key) (S : W) :
    (HasFieldChanged_seq base ev S requests).map (fun r => (r.ret, r.updates, r.state, r.self))
      = (base.HasFieldChanged_seq S requests).map (fun b => (b.changed, b.updates, b.state, ev)) := by
  induction requests generalizing S with
  | nil => rfl
  | cons request requests ih =>
    have h1 : ev.HasFieldChanged base S request
        = { self := ev, state := (base.HasFieldChanged S request).state,
            ret := (base.HasFieldChanged S request).changed,
            updates := (base.HasFieldChanged S request).updates } := by
      simp [HasFieldChanged, hev]
    simp only [HasFieldChanged_seq, SecondaryVariablesFieldEvaluator.HasFieldChanged_seq,
      List.map_cons, h1]
    rw [ih]

/-- C6: on an evaluator fresh from the constructor, the first call of
`HasFieldChanged` returns true whatever the base check returned and sets
`updated_once_`; each later call returns exactly what the base check returns,
leaves the memory as the base check left it, runs `UpdateField_` no more often
than the base check did, and leaves the evaluator unchanged. -/
theorem C6_first_call_true_then_base (base : SecondaryVariablesFieldEvaluator W)
    (plist : ParameterList) (bk bd : List Key) (ev : ElevationEvaluator) (S : W)
    (request : Key) (requests : List Key) (hctor : ctor plist bk bd = Except.ok ev) :
    (ev.HasFieldChanged base S request).ret = true ∧
    (ev.HasFieldChanged base S request).self.updated_once_ = true ∧
    (HasFieldChanged_seq base (ev.HasFieldChanged base S request).self
        (ev.HasFieldChanged base S request).state requests).map
          (fun r => (r.ret, r.updates, r.state, r.self))
      = (base.HasFieldChanged_seq (ev.HasFieldChanged base S request).state requests).map
          (fun b => (b.changed, b.updates, b.state, (ev.HasFieldChanged base S request).self)) := by
  have h0 := ctor_updated_once plist bk bd ev hctor
  have h1 : (ev.HasFieldChanged base S request).ret = true := by simp [HasFieldChanged, h0]
  have h2 : (ev.HasFieldChanged base S request).self.updated_once_ = true := by
    simp [HasFieldChanged, h0]
  exact ⟨h1, h2, HasFieldChanged_seq_updated base _ h2 requests _⟩

/-- C6 on the example evaluator: the first call answers true, the second call,
by the same requester, answers false as the base check does. -/
theorem C6_first_call_true_then_base_witness :
    ∃ ev, Example.evaluator = Except.ok ev ∧
      (HasFieldChanged_seq Example.base ev Example.fresh ["pk", "pk"]).map (fun r => r.ret)
        = [true, false] :=
  ⟨_, rfl, by
    have h := C6_first_call_true_then_base Example.base [] [] []
      ⟨[], ["elevation", "slope_magnitude"], [], false, false⟩ Example.fresh "pk" ["pk"] rfl
    have h3 := congrArg (List.map (fun t => t.1)) h.2.2
    simp only [List.map_map] at h3
    simp only [HasFieldChanged_seq, List.map_cons, h.1]
    exact congrArg (List.cons true) (h3.trans rfl)⟩

/-- C7 (the claim fails): the first call on a fresh evaluator with the dynamic
mesh option on, when its dependency "deformation" has changed and nothing
was computed yet, recomputes the fields twice: once in the base check and
once more in the run-once branch. -/
theorem C7_first_call_recomputes_twice :
    ∃ ev, Example.dynamic_evaluator = Except.ok ev ∧ ev.dependencies_ = ["deformation"] ∧
      (Example.base.HasFieldChanged ⟨true, false, [], 0⟩ "pk").updates = 1 ∧
      (ev.HasFieldChanged Example.base ⟨true, false, [], 0⟩ "pk").updates = 2 ∧
      (ev.HasFieldChanged Example.base ⟨true, false, [], 0⟩ "pk").state.n_updates = 2 :=
  ⟨_, rfl, rfl, rfl, rfl, rfl⟩

/-- C7 (amended): when the base check recomputes at most once per call, a
call of `HasFieldChanged` recomputes the evaluator's fields at most twice:
what the base check recomputed plus exactly one more in the run-once branch
on a call that finds `updated_once_` unset, and exactly what the base check
recomputed, so at most once, on every call that finds it set. -/
theorem C7_recomputations_per_call (base : SecondaryVariablesFieldEvaluator W)
    (ev : ElevationEvaluator) (S : W) (request : Key)
    (hbase : (base.HasFieldChanged S request).updates ≤ 1) :
    (ev.HasFieldChanged base S request).updates ≤ 2 ∧
    (ev.updated_once_ = false →
      (ev.HasFieldChanged base S request).updates = (base.HasFieldChanged S request).updates + 1) ∧
    (ev.updated_once_ = true →
      (ev.HasFieldChanged base S request).updates = (base.HasFieldChanged S request).updates ∧
      (ev.HasFieldChanged base S request).updates ≤ 1) := by
  cases h : ev.updated_once_ <;> simp [HasFieldChanged, h] <;> omega

/-- C7 (amended) on the example: the second call of a requester recomputes nothing. -/
theorem C7_recomputations_per_call_witness :
    (Example.base.HasFieldChanged
        ((⟨[], ["elevation", "slope_magnitude"], [], false, false⟩ : ElevationEvaluator).HasFieldChanged
          Example.base Example.fresh "pk").state "pk").updates ≤ 1 ∧
    (((⟨[], ["elevation", "slope_magnitude"], [], false, false⟩ : ElevationEvaluator).HasFieldChanged
        Example.base Example.fresh "pk").self.HasFieldChanged Example.base
      ((⟨[], ["elevation", "slope_magnitude"], [], false, false⟩ : ElevationEvaluator).HasFieldChanged
          Example.base Example.fresh "pk").state "pk").updates ≤ 2 :=
  ⟨by decide,
   (C7_recomputations_per_call Example.base _ _ "pk" (by decide)).1⟩

end ElevationEvaluator

namespace CompositeVector

end CompositeVector

namespace Richards

end Richards

namespace State

theorem find_modify_field (n m : Key) (g : Field → Field)
    (hg : ∀ f, (g f).fieldname_ = f.fieldname_) (fs : List Field) :
    (modify_field n g fs).find? (fun f => f.fieldname_ = m)
      = if m = n then (fs.find? (fun f => f.fieldname_ = n)).map g
        else fs.find? (fun f => f.fieldname_ = m) := by
  induction fs with
  | nil => simp [modify_field]
  | cons f fs ih =>
    by_cases hf : f.fieldname_ = n
    · by_cases hm : m = n
      · subst hm
        simp [modify_field, hf, hg]
      · have hfm : ¬ f.fieldname_ = m := fun e => hm (e.symm.trans hf)
        have hgm : ¬ (g f).fieldname_ = m := by rw [hg]; exact hfm
        simp only [modify_field, hf, if_true, hm, if_false]
        rw [List.find?_cons_of_neg _ (by simpa using hgm),
          List.find?_cons_of_neg _ (by simpa using hfm)]
    · by_cases hm : m = n
      · subst hm
        simp [modify_field, hf, ih]
      · by_cases hfm : f.fieldname_ = m
        · simp [modify_field, hf, hm, hfm]
        · simp [modify_field, hf, hm, hfm, ih]

theorem field_RequireField_other (S : State) (n o m : Key) (h : m ≠ n) :
    (S.RequireField n o).field m = S.field m := by
  unfold RequireField
  cases hn : S.field n with
  | some f => rfl
  | none =>
    have hne : ¬ n = m := fun e => h e.symm
    simp [field, List.find?_append, hne]

theorem owner_of_RequireField (S : State) (n o m : Key) :
    (S.RequireField n o).owner_of m
      = if m = n ∧ S.owner_of n = none then some o else S.owner_of m := by
  by_cases h : m = n
  · subst h
    unfold RequireField owner_of
    cases hn : S.field m with
    | some f => simp [hn]
    | none =>
      have hn2 := hn
      simp only [field] at hn2
      simp [field, List.find?_append, hn2]
  · simp [owner_of, field_RequireField_other S n o m h, h]

theorem with_field_eq (S : State) (n p : Key) (g : Field → Field) :
    S.with_field n p g
      = if S.owner_of n = some p then
          Except.ok { S with fields_ := modify_field n g S.fields_ }
        else if S.owner_of n = none then Except.error (Err.Message "field not found")
        else Except.error Err.OwnershipViolation := by
  unfold with_field owner_of
  cases hn : S.field n with
  | none => simp
  | some f =>
    by_cases hp : p = f.owner_
    · simp [hp]
    · have hp2 : ¬ f.owner_ = p := fun e => hp e.symm
      simp [hp, hp2]

theorem field_with_field (S S1 : State) (n p m : Key) (g : Field → Field)
    (h : S.with_field n p g = Except.ok S1)
    (hg : ∀ f, (g f).fieldname_ = f.fieldname_) :
    S1.field m = if m = n then (S.field n).map g else S.field m := by
  rw [with_field_eq] at h
  split at h
  · cases h
    exact find_modify_field n m g hg S.fields_
  · split at h <;> cases h

theorem owner_of_with_field (S S1 : State) (n p m : Key) (g : Field → Field)
    (h : S.with_field n p g = Except.ok S1)
    (hg : ∀ f, (g f).fieldname_ = f.fieldname_) (ho : ∀ f, (g f).owner_ = f.owner_) :
    S1.owner_of m = S.owner_of m := by
  unfold owner_of
  rw [field_with_field S S1 n p m g h hg]
  by_cases e : m = n
  · subst e
    cases S.field m <;> simp [ho]
  · simp [e]

end State

namespace ElevationEvaluator

theorem round_state_cases (ev : ElevationEvaluator) (S : State) (k : Key) (P : State → Prop)
    (h1 : P (S.RequireField k k))
    (h2 : ∀ b S2, (S.RequireField k k).with_field k k (fun f => { f with io_vis_ := b })
      = Except.ok S2 → P S2)
    (h3 : ∀ b S2 c S3, (S.RequireField k k).with_field k k (fun f => { f with io_vis_ := b })
      = Except.ok S2 →
      S2.with_field k k (fun f => { f with io_restart_ := c }) = Except.ok S3 → P S3) :
    P (ev.EnsureCompatibility_round S k).state := by
  simp only [EnsureCompatibility_round, State.set_io_vis, State.set_io_checkpoint]
  split
  next => exact h1
  next b1 hv =>
    split
    next => exact h1
    next S2 hs =>
      split
      next => exact h2 b1 S2 hs
      next b2 hc =>
        split
        next => exact h2 b1 S2 hs
        next S3 hs3 => exact h3 b1 S2 b2 S3 hs hs3

theorem round_field_other (ev : ElevationEvaluator) (S : State) (k m : Key) (h : m ≠ k) :
    (ev.EnsureCompatibility_round S k).state.field m = S.field m := by
  apply round_state_cases ev S k (fun T => T.field m = S.field m)
  · exact State.field_RequireField_other S k k m h
  · intro b S2 h2
    rw [State.field_with_field _ S2 k k m _ h2 (fun _ => rfl), if_neg h]
    exact State.field_RequireField_other S k k m h
  · intro b S2 c S3 h2 h3
    rw [State.field_with_field _ S3 k k m _ h3 (fun _ => rfl), if_neg h,
      State.field_with_field _ S2 k k m _ h2 (fun _ => rfl), if_neg h]
    exact State.field_RequireField_other S k k m h

theorem round_owner_of (ev : ElevationEvaluator) (S : State) (k m : Key) :
    (ev.EnsureCompatibility_round S k).state.owner_of m = (S.RequireField k k).owner_of m := by
  apply round_state_cases ev S k (fun T => T.owner_of m = (S.RequireField k k).owner_of m)
  · rfl
  · intro b S2 h2
    exact State.owner_of_with_field _ S2 k k m _ h2 (fun _ => rfl) (fun _ => rfl)
  · intro b S2 c S3 h2 h3
    rw [State.owner_of_with_field _ S3 k k m _ h3 (fun _ => rfl) (fun _ => rfl)]
    exact State.owner_of_with_field _ S2 k k m _ h2 (fun _ => rfl) (fun _ => rfl)

theorem round_ok_owner (ev : ElevationEvaluator) (S : State) (k : Key)
    (h : (ev.EnsureCompatibility_round S k).result = Except.ok ()) :
    (S.RequireField k k).owner_of k = some k := by
  simp only [EnsureCompatibility_round, State.set_io_vis, State.set_io_checkpoint] at h
  split at h
  next => cases h
  next b1 hv =>
    split at h
    next => cases h
    next S2 hs =>
      rw [State.with_field_eq] at hs
      by_contra hne
      rw [if_neg hne] at hs
      split at hs <;> cases hs

theorem round_ok (ev : ElevationEvaluator) (S : State) (k : Key) (b c : Bool)
    (hown : S.owner_of k = none ∨ S.owner_of k = some k)
    (hv : ev.plist_.get_bool ("visualize " ++ k) true = Except.ok b)
    (hc : ev.plist_.get_bool ("checkpoint " ++ k) false = Except.ok c) :
    (ev.EnsureCompatibility_round S k).result = Except.ok () := by
  have h1 : (S.RequireField k k).owner_of k = some k := by
    rw [State.owner_of_RequireField]
    rcases hown with h | h <;> simp [h]
  have hs : (S.RequireField k k).with_field k k (fun f => { f with io_vis_ := b })
      = Except.ok { S.RequireField k k with
          fields_ := State.modify_field k (fun f => { f with io_vis_ := b })
            (S.RequireField k k).fields_ } := by
    rw [State.with_field_eq, if_pos h1]
  have h2 := State.owner_of_with_field _ _ k k k _ hs (fun _ => rfl) (fun _ => rfl)
  have hs3 : State.with_field { S.RequireField k k with
          fields_ := State.modify_field k (fun f => { f with io_vis_ := b })
            (S.RequireField k k).fields_ } k k (fun f => { f with io_restart_ := c })
      = Except.ok { S.RequireField k k with
          fields_ := State.modify_field k (fun f => { f with io_restart_ := c })
            (State.modify_field k (fun f => { f with io_vis_ := b })
              (S.RequireField k k).fields_) } := by
    rw [State.with_field_eq, if_pos (h2.trans h1)]
  simp only [EnsureCompatibility_round, State.set_io_vis, State.set_io_checkpoint, hv, hs, hc, hs3]

theorem round_owner_kept (ev : ElevationEvaluator) (S : State) (k m o : Key)
    (h : S.owner_of m = some o) : (ev.EnsureCompatibility_round S k).state.owner_of m = some o := by
  rw [round_owner_of, State.owner_of_RequireField]
  by_cases e : m = k
  · subst e
    simp [h]
  · simp [e, h]

theorem loop_field_other (ev : ElevationEvaluator) (keys : List Key) (S : State) (m : Key)
    (h : m ∉ keys) : (ev.EnsureCompatibility_loop keys S).state.field m = S.field m := by
  induction keys generalizing S with
  | nil => rfl
  | cons k keys ih =>
    have hk : m ≠ k := fun e => h (e ▸ List.mem_cons_self _ _)
    have hks : m ∉ keys := fun e => h (List.mem_cons_of_mem _ e)
    unfold EnsureCompatibility_loop
    split
    next => exact round_field_other ev S k m hk
    next => rw [ih _ hks, round_field_other ev S k m hk]

theorem loop_owner_kept (ev : ElevationEvaluator) (keys : List Key) (S : State) (m o : Key)
    (h : S.owner_of m = some o) : (ev.EnsureCompatibility_loop keys S).state.owner_of m = some o := by
  induction keys generalizing S with
  | nil => exact h
  | cons k keys ih =>
    unfold EnsureCompatibility_loop
    split
    next => exact round_owner_kept ev S k m o h
    next => exact ih _ (round_owner_kept ev S k m o h)

theorem loop_ok_owner (ev : ElevationEvaluator) (keys : List Key) (S : State)
    (h : (ev.EnsureCompatibility_loop keys S).result = Except.ok ()) :
    ∀ k ∈ keys, (ev.EnsureCompatibility_loop keys S).state.owner_of k = some k := by
  induction keys generalizing S with
  | nil => intro k hk; cases hk
  | cons k0 keys ih =>
    unfold EnsureCompatibility_loop at h ⊢
    split at h
    next => cases h
    next u hr =>
      intro k hk
      rcases List.mem_cons.mp hk with e | e
      · subst e
        apply loop_owner_kept
        rw [round_owner_of]
        exact round_ok_owner ev S k hr
      · exact ih _ h k e

theorem loop_ok (ev : ElevationEvaluator) (keys : List Key) (S : State)
    (hown : ∀ k ∈ keys, S.owner_of k = none ∨ S.owner_of k = some k)
    (hp : ∀ k ∈ keys, ∃ b c, ev.plist_.get_bool ("visualize " ++ k) true = Except.ok b ∧
      ev.plist_.get_bool ("checkpoint " ++ k) false = Except.ok c) :
    (ev.EnsureCompatibility_loop keys S).result = Except.ok () := by
  induction keys generalizing S with
  | nil => rfl
  | cons k0 keys ih =>
    obtain ⟨b, c, hv, hc⟩ := hp k0 (List.mem_cons_self _ _)
    have hr := round_ok ev S k0 b c (hown k0 (List.mem_cons_self _ _)) hv hc
    unfold EnsureCompatibility_loop
    rw [hr]
    apply ih _ _ (fun k hk => hp k (List.mem_cons_of_mem _ hk))
    intro k hk
    rw [round_owner_of, State.owner_of_RequireField]
    by_cases e : k = k0
    · subst e
      rcases hown k (List.mem_cons_self _ _) with h | h <;> simp [h]
    · simp [e, hown k (List.mem_cons_of_mem _ hk)]

/-- C10 (the claim fails): the evaluator built with the dynamic-mesh option on
has "deformation" in its dependency set; `EnsureCompatibility` on a state
without fields succeeds and registers "elevation" and "slope_magnitude" only:
"deformation" is not required. -/
theorem C10_dependency_not_required :
    ∃ ev, Example.dynamic_evaluator = Except.ok ev ∧
      ev.dependencies_ = ["deformation"] ∧
      (ev.EnsureCompatibility Example.empty_state).result = Except.ok () ∧
      (ev.EnsureCompatibility Example.empty_state).state.fields_.map (fun f => f.fieldname_)
        = ["elevation", "slope_magnitude"] ∧
      (ev.EnsureCompatibility Example.empty_state).state.field "deformation" = none :=
  ⟨_, rfl, rfl, rfl, rfl, rfl⟩

/-- C10 (amended): `EnsureCompatibility` requires in the state every field the
evaluator owns, each with owner equal to its own key, and no other field:
the registry entry of every name outside `my_keys_` (a dependency such as
"deformation" included) is what it was before; when the call returns, every
key of `my_keys_` is registered with itself as owner; and the call returns
whenever no key is registered to another owner and the list's "visualize"
and "checkpoint" entries for the keys are booleans or absent. -/
theorem C10_requires_own_keys_only (ev : ElevationEvaluator) (S : State) :
    (∀ m, m ∉ ev.my_keys_ → (ev.EnsureCompatibility S).state.field m = S.field m) ∧
    ((ev.EnsureCompatibility S).result = Except.ok () →
      ∀ k ∈ ev.my_keys_, (ev.EnsureCompatibility S).state.owner_of k = some k) ∧
    ((∀ k ∈ ev.my_keys_, S.owner_of k = none ∨ S.owner_of k = some k) →
      (∀ k ∈ ev.my_keys_, ∃ b c,
        ev.plist_.get_bool ("visualize " ++ k) true = Except.ok b ∧
        ev.plist_.get_bool ("checkpoint " ++ k) false = Except.ok c) →
      (ev.EnsureCompatibility S).result = Except.ok ()) :=
  ⟨fun m hm => loop_field_other ev ev.my_keys_ S m hm,
   fun h => loop_ok_owner ev ev.my_keys_ S h,
   fun hown hp => loop_ok ev ev.my_keys_ S hown hp⟩

end ElevationEvaluator

theorem Epetra_Update_vector_length (sA sB sT : ℚ) (this A B : List ℚ) :
    (Epetra_Update_vector sA sB sT this A B).length = this.length := by
  induction this generalizing A B with
  | nil => rfl
  | cons x this ih => simp [Epetra_Update_vector, ih]

theorem getD_tail {α : Type} (l : List α) (i : Nat) (d : α) :
    l.tail.getD i d = l.getD (i + 1) d := by
  cases l <;> rfl

theorem headD_eq_getD {α : Type} (l : List α) (d : α) : l.headD d = l.getD 0 d := by
  cases l <;> rfl

theorem Epetra_Update_vector_getD (sA sB sT : ℚ) (this A B : List ℚ) (i : Nat)
    (hi : i < this.length) :
    (Epetra_Update_vector sA sB sT this A B).getD i 0
      = sT * this.getD i 0 + sA * A.getD i 0 + sB * B.getD i 0 := by
  induction this generalizing A B i with
  | nil => cases hi
  | cons x this ih =>
    cases i with
    | zero =>
      simp only [Epetra_Update_vector, List.getD_cons_zero, headD_eq_getD]
    | succ i =>
      have hi2 : i < this.length := Nat.lt_of_succ_lt_succ hi
      simp only [Epetra_Update_vector, List.getD_cons_succ]
      rw [ih _ _ i hi2, getD_tail, getD_tail]

theorem Epetra_Update_length (sA sB sT : ℚ) (A B this : Epetra_MultiVector) :
    (Epetra_Update sA A sB B sT this).length = this.length := by
  induction this generalizing A B with
  | nil => rfl
  | cons x this ih => simp [Epetra_Update, ih]

theorem Epetra_Update_getD (sA sB sT : ℚ) (A B this : Epetra_MultiVector) (j : Nat)
    (hj : j < this.length) :
    (Epetra_Update sA A sB B sT this).getD j []
      = Epetra_Update_vector sA sB sT (this.getD j []) (A.getD j []) (B.getD j []) := by
  induction this generalizing A B j with
  | nil => cases hj
  | cons x this ih =>
    cases j with
    | zero =>
      simp only [Epetra_Update, List.getD_cons_zero, headD_eq_getD]
    | succ j =>
      have hj2 : j < this.length := Nat.lt_of_succ_lt_succ hj
      simp only [Epetra_Update, List.getD_cons_succ]
      rw [ih _ _ j hj2, getD_tail, getD_tail]

theorem Epetra_Update_shape (sA sB sT : ℚ) (A B this : Epetra_MultiVector) :
    (Epetra_Update sA A sB B sT this).map List.length = this.map List.length := by
  induction this generalizing A B with
  | nil => rfl
  | cons x this ih => simp [Epetra_Update, ih, Epetra_Update_vector_length]

theorem mv_get_Epetra_Update (sA sB sT : ℚ) (A B this : Epetra_MultiVector) (j i : Nat)
    (hj : j < this.length) (hi : i < (this.getD j []).length) :
    mv_get (Epetra_Update sA A sB B sT this) j i
      = sT * mv_get this j i + sA * mv_get A j i + sB * mv_get B j i := by
  unfold mv_get
  rw [Epetra_Update_getD sA sB sT A B this j hj, Epetra_Update_vector_getD _ _ _ _ _ _ i hi]

theorem mv_ext (a b : Epetra_MultiVector) (hshape : a.map List.length = b.map List.length)
    (h : ∀ j i, j < a.length → i < (a.getD j []).length → mv_get a j i = mv_get b j i) :
    a = b := by
  have hlen : a.length = b.length := by
    have := congrArg List.length hshape
    simpa using this
  apply List.ext_getElem hlen
  intro j h1 h2
  have hcol : (a[j]).length = (b[j]).length := by
    have e1 : (a.map List.length)[j]? = (b.map List.length)[j]? := by rw [hshape]
    simpa [List.getElem?_map, List.getElem?_eq_getElem h1, List.getElem?_eq_getElem h2] using e1
  apply List.ext_getElem hcol
  intro i h3 h4
  have ha : a.getD j [] = a[j] := by
    simp [List.getD_eq_getElem?_getD, List.getElem?_eq_getElem h1]
  have hb : b.getD j [] = b[j] := by
    simp [List.getD_eq_getElem?_getD, List.getElem?_eq_getElem h2]
  have := h j i h1 (by rw [ha]; exact h3)
  unfold mv_get at this
  rw [ha, hb] at this
  simpa [List.getD_eq_getElem?_getD, List.getElem?_eq_getElem h3,
    List.getElem?_eq_getElem h4] using this

namespace CoupledTransport_PK

/-- C11: for all cell vectors `v0`, `v1` and all `dt ≠ 0`, `InterpolateCellVector`
leaves `v_int` with its shape and with every entry equal to
`(1 - dt_int/dt)*v0 + (dt_int/dt)*v1`, whatever `v_int` held before; so
the entries are those of `v0` when `dt_int = 0` and those of `v1` when
`dt_int = dt`, and `v_int` is `v0` (is `v1`) itself when that vector has the
shape of `v_int`. -/
theorem C11_interpolation (v0 v1 v_int : Epetra_MultiVector) (dt_int dt : ℚ) (hdt : dt ≠ 0) :
    ((InterpolateCellVector v0 v1 dt_int dt v_int).map List.length = v_int.map List.length) ∧
    (∀ j i, j < v_int.length → i < (v_int.getD j []).length →
      mv_get (InterpolateCellVector v0 v1 dt_int dt v_int) j i
        = (1 - dt_int / dt) * mv_get v0 j i + (dt_int / dt) * mv_get v1 j i) ∧
    (dt_int = 0 →
      (∀ j i, j < v_int.length → i < (v_int.getD j []).length →
        mv_get (InterpolateCellVector v0 v1 dt_int dt v_int) j i = mv_get v0 j i) ∧
      (v0.map List.length = v_int.map List.length →
        InterpolateCellVector v0 v1 dt_int dt v_int = v0)) ∧
    (dt_int = dt →
      (∀ j i, j < v_int.length → i < (v_int.getD j []).length →
        mv_get (InterpolateCellVector v0 v1 dt_int dt v_int) j i = mv_get v1 j i) ∧
      (v1.map List.length = v_int.map List.length →
        InterpolateCellVector v0 v1 dt_int dt v_int = v1)) := by
  have hshape : (InterpolateCellVector v0 v1 dt_int dt v_int).map List.length
      = v_int.map List.length := Epetra_Update_shape _ _ _ _ _ _
  have hlen : (InterpolateCellVector v0 v1 dt_int dt v_int).length = v_int.length := by
    simpa using congrArg List.length hshape
  have hcol : ∀ j, j < v_int.length →
      ((InterpolateCellVector v0 v1 dt_int dt v_int).getD j []).length
        = (v_int.getD j []).length := by
    intro j hj
    unfold InterpolateCellVector
    rw [Epetra_Update_getD _ _ _ _ _ _ j hj, Epetra_Update_vector_length]
  have hentry : ∀ j i, j < v_int.length → i < (v_int.getD j []).length →
      mv_get (InterpolateCellVector v0 v1 dt_int dt v_int) j i
        = (1 - dt_int / dt) * mv_get v0 j i + (dt_int / dt) * mv_get v1 j i := by
    intro j i hj hi
    unfold InterpolateCellVector
    rw [mv_get_Epetra_Update _ _ _ _ _ _ j i hj hi]
    ring
  refine ⟨hshape, hentry, fun h0 => ?_, fun h1 => ?_⟩
  · have he : ∀ j i, j < v_int.length → i < (v_int.getD j []).length →
        mv_get (InterpolateCellVector v0 v1 dt_int dt v_int) j i = mv_get v0 j i := by
      intro j i hj hi
      rw [hentry j i hj hi, h0]
      simp
    refine ⟨he, fun hs => ?_⟩
    apply mv_ext _ _ (hshape.trans hs.symm)
    intro j i hj hi
    exact he j i (hlen ▸ hj) (hcol j (hlen ▸ hj) ▸ hi)
  · have he : ∀ j i, j < v_int.length → i < (v_int.getD j []).length →
        mv_get (InterpolateCellVector v0 v1 dt_int dt v_int) j i = mv_get v1 j i := by
      intro j i hj hi
      rw [hentry j i hj hi, h1, div_self hdt]
      simp
    refine ⟨he, fun hs => ?_⟩
    apply mv_ext _ _ (hshape.trans hs.symm)
    intro j i hj hi
    exact he j i (hlen ▸ hj) (hcol j (hlen ▸ hj) ▸ hi)

/-- C11 at `v0 = [[1, 2]]`, `v1 = [[3, 6]]`, `dt = 2`: halfway (`dt_int = 1`) the
entries are 2 and 4, and at `dt_int = dt` the vector is `v1`, whatever
`v_int = [[7, 7]]` held. -/
theorem C11_interpolation_witness :
    (2 : ℚ) ≠ 0 ∧
    InterpolateCellVector [[1, 2]] [[3, 6]] 1 2 [[7, 7]] = [[2, 4]] ∧
    InterpolateCellVector [[1, 2]] [[3, 6]] 2 2 [[7, 7]] = [[3, 6]] :=
  ⟨by norm_num,
   by simp [InterpolateCellVector, Epetra_Update, Epetra_Update_vector]; norm_num,
   ((C11_interpolation [[1, 2]] [[3, 6]] [[7, 7]] 2 2 (by norm_num)).2.2.2 rfl).2 rfl⟩

end CoupledTransport_PK

namespace CoupledTransport_PK

variable {W : Type}

/-- C16: with both kernel pointers set (as after `Setup`),
`num_aqueous_component` raises its configuration error if and only if the
subsurface and the surface kernel report different numbers of aqueous
components, raises no other error, and returns the common number when they agree. -/
theorem C16_num_aqueous_component (pk : CoupledTransport_PK W) (w : W)
    (a b : Transport_PK_ATS W) (ha : pk.subsurf_pk_ = some a) (hb : pk.surf_pk_ = some b) :
    (pk.num_aqueous_component w
        = Except.error
            (Err.Message "CoupledTransport_PK:: numbers aqueous component does not match.")
      ↔ a.num_aqueous_component w ≠ b.num_aqueous_component w) ∧
    (a.num_aqueous_component w = b.num_aqueous_component w →
      pk.num_aqueous_component w = Except.ok (a.num_aqueous_component w)) ∧
    (∀ e, pk.num_aqueous_component w = Except.error e →
      e = Err.Message "CoupledTransport_PK:: numbers aqueous component does not match.") := by
  by_cases h : a.num_aqueous_component w = b.num_aqueous_component w
  · simp [num_aqueous_component, ha, hb, h]
  · simp [num_aqueous_component, ha, hb, h]

/-- C16 on the example coupler after `Setup`: both kernels report one component. -/
theorem C16_num_aqueous_component_witness :
    Example.two_domain.subsurf_pk_ = some (Example.child "subsurface" (6/5) false) ∧
    Example.two_domain.num_aqueous_component [] = Except.ok 1 :=
  ⟨rfl,
    (C16_num_aqueous_component Example.two_domain [] (Example.child "subsurface" (6/5) false)
      (Example.child "surface" (1/2) false) rfl rfl).2.1 rfl⟩

end CoupledTransport_PK

namespace ElevationEvaluator

variable {W : Type}

theorem bf_loop_error (mesh : Mesh) (slope_c slope_bf : Epetra_MultiVector) (n : Nat) (e : Err)
    (h : bf_loop mesh slope_c n slope_bf = Except.error e) :
    e = Err.AssertionFailed ∧ ∃ bf, bf < n ∧
      (mesh.face_get_cells (mesh.face_LID (mesh.exterior_face_GID bf))).length ≠ 1 := by
  induction n with
  | zero => cases h
  | succ n ih =>
    simp only [bf_loop] at h
    split at h
    next e1 h1 =>
      cases h
      obtain ⟨he, bf, hbf, hbad⟩ := ih h1
      exact ⟨he, bf, Nat.lt_succ_of_lt hbf, hbad⟩
    next v h1 =>
      simp only [bf_round] at h
      split at h
      · cases h
      next hbad =>
        cases h
        exact ⟨rfl, n, Nat.lt_succ_self n, hbad⟩

theorem bf_loop_fails (mesh : Mesh) (slope_c slope_bf : Epetra_MultiVector) (n : Nat)
    (h : ∃ bf, bf < n ∧
      (mesh.face_get_cells (mesh.face_LID (mesh.exterior_face_GID bf))).length ≠ 1) :
    bf_loop mesh slope_c n slope_bf = Except.error Err.AssertionFailed := by
  induction n with
  | zero =>
    obtain ⟨bf, hbf, -⟩ := h
    cases hbf
  | succ n ih =>
    obtain ⟨bf, hbf, hbad⟩ := h
    simp only [bf_loop]
    cases h1 : bf_loop mesh slope_c n slope_bf with
    | error e =>
      obtain ⟨he, -⟩ := bf_loop_error mesh slope_c slope_bf n e h1
      rw [he]
    | ok v =>
      have hn : bf = n := by
        by_contra hne
        have hlt : bf < n := by omega
        rw [ih ⟨bf, hlt, hbad⟩] at h1
        cases h1
      subst hn
      simp only [bf_round, hbad, if_false]

/-- C14: when the slope field carries a boundary_face component (and its cell
component), `EvaluateField_` fails with the assertion if and only if some
boundary face has zero or more than one adjacent cell; at the first such
face the faces before it have been handled and the round of that face
raises the assertion instead of writing; and when every boundary face has
exactly one adjacent cell the call returns. -/
theorem C14_boundary_assertion
    (EvaluateElevationAndSlope_ : W → CompositeVector × CompositeVector →
      CompositeVector × CompositeVector)
    (mesh : Mesh) (S : W) (results : CompositeVector × CompositeVector)
    (slope_bf slope_c : Epetra_MultiVector)
    (hbf : (EvaluateElevationAndSlope_ S results).2.ViewComponent "boundary_face" = some slope_bf)
    (hc : (EvaluateElevationAndSlope_ S results).2.ViewComponent "cell" = some slope_c) :
    (EvaluateField_ EvaluateElevationAndSlope_ mesh S results = Except.error Err.AssertionFailed
      ↔ ∃ bf, bf < MyLength slope_bf ∧
          (mesh.face_get_cells (mesh.face_LID (mesh.exterior_face_GID bf))).length ≠ 1) ∧
    (∀ b, b < MyLength slope_bf →
      (mesh.face_get_cells (mesh.face_LID (mesh.exterior_face_GID b))).length ≠ 1 →
      (∀ bf, bf < b →
        (mesh.face_get_cells (mesh.face_LID (mesh.exterior_face_GID bf))).length = 1) →
      ∃ v, bf_loop mesh slope_c b slope_bf = Except.ok v ∧
        bf_round mesh slope_c v b = Except.error Err.AssertionFailed) ∧
    ((∀ bf, bf < MyLength slope_bf →
        (mesh.face_get_cells (mesh.face_LID (mesh.exterior_face_GID bf))).length = 1) →
      ∃ out, EvaluateField_ EvaluateElevationAndSlope_ mesh S results = Except.ok out) := by
  have hhas : (EvaluateElevationAndSlope_ S results).2.has_component "boundary_face" = true := by
    have h := hbf
    simp only [CompositeVector.ViewComponent] at h
    simp [CompositeVector.has_component, h]
  have hrun : EvaluateField_ EvaluateElevationAndSlope_ mesh S results
      = match bf_loop mesh slope_c (MyLength slope_bf) slope_bf with
        | Except.error e => Except.error e
        | Except.ok v => Except.ok ((EvaluateElevationAndSlope_ S results).1,
            (EvaluateElevationAndSlope_ S results).2.SetComponent "boundary_face" v) := by
    simp only [EvaluateField_, hhas, if_true, hbf, hc]
  refine ⟨⟨fun h => ?_, fun h => ?_⟩, fun b hb hbad hgood => ?_, fun hall => ?_⟩
  · rw [hrun] at h
    cases h1 : bf_loop mesh slope_c (MyLength slope_bf) slope_bf with
    | error e => exact (bf_loop_error mesh slope_c slope_bf _ e h1).2
    | ok v => rw [h1] at h; cases h
  · rw [hrun, bf_loop_fails mesh slope_c slope_bf _ h]
  · obtain ⟨v, hv, -⟩ := bf_loop_ok mesh slope_c slope_bf b hgood
    exact ⟨v, hv, by simp only [bf_round, hbad, if_false]⟩
  · obtain ⟨v, hv, -⟩ := bf_loop_ok mesh slope_c slope_bf (MyLength slope_bf) hall
    exact ⟨_, by rw [hrun, hv]⟩

/-- C14 on the four-cell row whose boundary face 1 is mapped to an interior
face with two cells: `EvaluateField_` fails with the assertion. -/
theorem C14_boundary_assertion_witness :
    (Example.broken_mesh.face_get_cells
      (Example.broken_mesh.face_LID (Example.broken_mesh.exterior_face_GID 1))) = [1, 2] ∧
    EvaluateField_ (fun (_ : Unit) r => r) Example.broken_mesh ()
      (Example.elevation, Example.slope) = Except.error Err.AssertionFailed :=
  ⟨rfl,
   (C14_boundary_assertion (fun (_ : Unit) r => r) Example.broken_mesh ()
      (Example.elevation, Example.slope) [[0, 0]] [[1/10, 1/5, 3/10, 2/5]] rfl rfl).1.mpr
      ⟨1, by decide, by decide⟩⟩

end ElevationEvaluator

namespace Richards

variable {M : Type}

/-- The print of `bc_values_[3]` and `bc_values_[5]` on a vector without these
entries: the call ends outside the vector after three operator calls, with
gravity added and neither boundary conditions applied nor the operator
assembled. -/
theorem ApplyDiffusion_short_bc_values :
    (ApplyDiffusion_ Example.recording_service id Example.flow_mesh Example.K_ [-10] [] []
        (Example.flow_state "flow") ⟨[], [], []⟩ (Example.one_cell 0)).result
      = Except.error Err.OutOfRange ∧
    (ApplyDiffusion_ Example.recording_service id Example.flow_mesh Example.K_ [-10] [] []
        (Example.flow_state "flow") ⟨[], [], []⟩ (Example.one_cell 0)).calls
      = [OperatorCall.CreateMFDstiffnessMatrices, OperatorCall.CreateMFDrhsVectors,
          OperatorCall.AddGravityFluxes_] :=
  ⟨rfl, rfl⟩

/-- C13, counterexample: on the two-cell column whose "numerical_rel_perm" is
owned by "other", with six boundary values, `ApplyDiffusion_` throws the
ownership violation of `GetFieldData("numerical_rel_perm", "flow")` and makes
no operator call at all: the sequence of calls is not the six of the claim. -/
theorem C13_no_operator_call_when_access_fails :
    (ApplyDiffusion_ Example.recording_service id Example.flow_mesh Example.K_ [-10]
        [0, 0, 0, 0, 0, 0] [0, 0, 0, 7, 0, 9] (Example.flow_state "other") ⟨[], [], []⟩
        (Example.one_cell 0)).result = Except.error Err.OwnershipViolation ∧
    (ApplyDiffusion_ Example.recording_service id Example.flow_mesh Example.K_ [-10]
        [0, 0, 0, 0, 0, 0] [0, 0, 0, 7, 0, 9] (Example.flow_state "other") ⟨[], [], []⟩
        (Example.one_cell 0)).calls = [] ∧
    (ApplyDiffusion_ Example.recording_service id Example.flow_mesh Example.K_ [-10]
        [0, 0, 0, 0, 0, 0] [0, 0, 0, 7, 0, 9] (Example.flow_state "other") ⟨[], [], []⟩
        (Example.one_cell 0)).calls
      ≠ [OperatorCall.CreateMFDstiffnessMatrices, OperatorCall.CreateMFDrhsVectors,
          OperatorCall.AddGravityFluxes_, OperatorCall.ApplyBoundaryConditions,
          OperatorCall.AssembleGlobalMatrices, OperatorCall.ComputeNegativeResidual] :=
  ⟨rfl, rfl, by decide⟩

/-- C13, amended: in `ApplyDiffusion_`, for every state in which the access
`GetFieldData("numerical_rel_perm", "flow")` succeeds, and with `bc_values_`
holding the entries 3 and 5 that the function prints, the operator calls are,
in this order, build stiffness matrices, build right-hand-side vectors,
`AddGravityFluxes_`, `ApplyBoundaryConditions`, `AssembleGlobalMatrices`,
`ComputeNegativeResidual`, the call returns, and the operator that boundary
conditions and assembly consume is the one `AddGravityFluxes_` left; for every
state in which that access fails, the function throws before the first
operator call: the sequence is empty and operator and residual are untouched. -/
theorem C13_ApplyDiffusion_order (ops : MatrixMFD_service M)
    (UpdatePermeabilityData_ : State → State) (mesh : FlowMesh) (K_ : Nat → Point → Point)
    (g_vec : Point) (bc_markers_ : List Nat) (bc_values_ : List ℚ) (S : State)
    (matrix_ : MatrixMFD M) (g : CompositeVector) :
    (∀ rel_perm,
      (UpdatePermeabilityData_ S).GetFieldData_owner "numerical_rel_perm" "flow"
        = Except.ok rel_perm →
      6 ≤ bc_values_.length →
      (ApplyDiffusion_ ops UpdatePermeabilityData_ mesh K_ g_vec bc_markers_ bc_values_ S
          matrix_ g).calls
        = [OperatorCall.CreateMFDstiffnessMatrices, OperatorCall.CreateMFDrhsVectors,
            OperatorCall.AddGravityFluxes_, OperatorCall.ApplyBoundaryConditions,
            OperatorCall.AssembleGlobalMatrices, OperatorCall.ComputeNegativeResidual] ∧
      (ApplyDiffusion_ ops UpdatePermeabilityData_ mesh K_ g_vec bc_markers_ bc_values_ S
          matrix_ g).result = Except.ok () ∧
      (ApplyDiffusion_ ops UpdatePermeabilityData_ mesh K_ g_vec bc_markers_ bc_values_ S
          matrix_ g).matrix
        = ops.AssembleGlobalMatrices (ops.ApplyBoundaryConditions bc_markers_ bc_values_
            (AddGravityFluxes_ mesh K_ g_vec (UpdatePermeabilityData_ S)
              (ops.CreateMFDrhsVectors (ops.CreateMFDstiffnessMatrices rel_perm matrix_)))) ∧
      (ApplyDiffusion_ ops UpdatePermeabilityData_ mesh K_ g_vec bc_markers_ bc_values_ S
          matrix_ g).g
        = ops.ComputeNegativeResidual
            (ApplyDiffusion_ ops UpdatePermeabilityData_ mesh K_ g_vec bc_markers_ bc_values_ S
              matrix_ g).matrix
            ((UpdatePermeabilityData_ S).GetFieldData "pressure") g) ∧
    (∀ e,
      (UpdatePermeabilityData_ S).GetFieldData_owner "numerical_rel_perm" "flow"
        = Except.error e →
      (ApplyDiffusion_ ops UpdatePermeabilityData_ mesh K_ g_vec bc_markers_ bc_values_ S
          matrix_ g).calls = [] ∧
      (ApplyDiffusion_ ops UpdatePermeabilityData_ mesh K_ g_vec bc_markers_ bc_values_ S
          matrix_ g).result = Except.error e ∧
      (ApplyDiffusion_ ops UpdatePermeabilityData_ mesh K_ g_vec bc_markers_ bc_values_ S
          matrix_ g).matrix = matrix_ ∧
      (ApplyDiffusion_ ops UpdatePermeabilityData_ mesh K_ g_vec bc_markers_ bc_values_ S
          matrix_ g).g = g) := by
  constructor
  · intro rel_perm hr hbc
    have h3 : bc_values_[3]? = some (bc_values_.get ⟨3, by omega⟩) :=
      List.getElem?_eq_getElem (by omega)
    have h5 : bc_values_[5]? = some (bc_values_.get ⟨5, by omega⟩) :=
      List.getElem?_eq_getElem (by omega)
    simp only [ApplyDiffusion_, hr, h3, h5]
    simp
  · intro e he
    simp only [ApplyDiffusion_, he]
    simp

/-- C13 on the two-cell column with a recording operator and six boundary
values: the access succeeds, the calls are the six in order, and the
operator's own record shows that boundary conditions and assembly found the
cell contributions with gravity already added (10 and 5), which the build
steps had not; the values printed are entries 3 and 5. -/
theorem C13_ApplyDiffusion_order_witness :
    (∃ rel_perm, (id (Example.flow_state "flow")).GetFieldData_owner "numerical_rel_perm" "flow"
        = Except.ok rel_perm) ∧
    6 ≤ ([0, 0, 0, 7, 0, 9] : List ℚ).length ∧
    (ApplyDiffusion_ Example.recording_service id Example.flow_mesh Example.K_ [-10]
        [0, 0, 0, 0, 0, 0] [0, 0, 0, 7, 0, 9] (Example.flow_state "flow") ⟨[], [], []⟩
        (Example.one_cell 0)).calls
      = [OperatorCall.CreateMFDstiffnessMatrices, OperatorCall.CreateMFDrhsVectors,
          OperatorCall.AddGravityFluxes_, OperatorCall.ApplyBoundaryConditions,
          OperatorCall.AssembleGlobalMatrices, OperatorCall.ComputeNegativeResidual] ∧
    (ApplyDiffusion_ Example.recording_service id Example.flow_mesh Example.K_ [-10]
        [0, 0, 0, 0, 0, 0] [0, 0, 0, 7, 0, 9] (Example.flow_state "flow") ⟨[], [], []⟩
        (Example.one_cell 0)).result = Except.ok () ∧
    (ApplyDiffusion_ Example.recording_service id Example.flow_mesh Example.K_ [-10]
        [0, 0, 0, 0, 0, 0] [0, 0, 0, 7, 0, 9] (Example.flow_state "flow") ⟨[], [], []⟩
        (Example.one_cell 0)).matrix.rest
      = [("stiffness", []), ("rhs", []), ("bc", [-10, -5]), ("assemble", [-10, -5])] ∧
    (ApplyDiffusion_ Example.recording_service id Example.flow_mesh Example.K_ [-10]
        [0, 0, 0, 0, 0, 0] [0, 0, 0, 7, 0, 9] (Example.flow_state "flow") ⟨[], [], []⟩
        (Example.one_cell 0)).out = [7, 9] := by
  have h := (C13_ApplyDiffusion_order Example.recording_service id Example.flow_mesh
    Example.K_ [-10] [0, 0, 0, 0, 0, 0] [0, 0, 0, 7, 0, 9] (Example.flow_state "flow")
    ⟨[], [], []⟩ (Example.one_cell 0)).1 _ rfl (by decide)
  refine ⟨⟨_, rfl⟩, by decide, h.1, h.2.1, ?_, ?_⟩
  · simp [ApplyDiffusion_, State.GetFieldData_owner, State.field, Example.flow_state,
      Example.recording_service, AddGravityFluxes_, AddGravityFluxes_loop, AddGravityFluxes_cell,
      AddGravityFluxes_faces, outward_flux, Example.flow_mesh, Example.K_, Point.dot,
      State.GetFieldData, CompositeVector.size, CompositeVector.entry,
      CompositeVector.ViewComponent, findView, Example.cell_face, MyLength, mv_get]
    norm_num [List.getElem_cons]
  · simp [ApplyDiffusion_, State.GetFieldData_owner, State.field, Example.flow_state]

end Richards

namespace CompositeVector

theorem size_set_entry (g : CompositeVector) (name : String) (i : Nat) (x : ℚ) :
    (g.set_entry name i x).size name = g.size name := by
  simp only [size, set_entry, ViewComponent, SetComponent, findView_setView_same]
  cases h : findView name g.components with
  | none => rfl
  | some v => simp [MyLength_mv_set]

theorem entry_set_entry (g : CompositeVector) (name : String) (i k : Nat) (x : ℚ) :
    (g.set_entry name i x).entry name k
      = if k = i ∧ i < g.size name then x else g.entry name k := by
  simp only [entry, size, set_entry, ViewComponent, SetComponent, findView_setView_same]
  cases h : findView name g.components with
  | none => simp [mv_get, MyLength]
  | some v => simp [mv_get_mv_set]

end CompositeVector

namespace Richards

theorem set_entries_spec (val : Nat → ℚ) (cells : List Nat) (sat : CompositeVector) :
    (cells.foldl (fun s c => s.set_entry "cell" c (val c)) sat).size "cell" = sat.size "cell" ∧
    ∀ k, (cells.foldl (fun s c => s.set_entry "cell" c (val c)) sat).entry "cell" k
      = if k ∈ cells ∧ k < sat.size "cell" then val k else sat.entry "cell" k := by
  induction cells generalizing sat with
  | nil => exact ⟨rfl, fun k => by simp⟩
  | cons c cells ih =>
    obtain ⟨hsize, hentry⟩ := ih (sat.set_entry "cell" c (val c))
    rw [CompositeVector.size_set_entry] at hsize
    refine ⟨by simpa [List.foldl_cons] using hsize, fun k => ?_⟩
    rw [List.foldl_cons, hentry k, CompositeVector.size_set_entry,
      CompositeVector.entry_set_entry]
    by_cases hk : k < sat.size "cell"
    · by_cases hin : k ∈ cells
      · simp [hin, hk]
      · by_cases hc : k = c
        · subst hc
          simp [hk]
        · simp [hin, hc]
    · by_cases hc : k = c
      · subst hc
        simp [hk]
      · simp [hk, hc]

theorem Saturation_region_spec (mesh : FlowMesh) (pres : CompositeVector) (p_atm : ℚ)
    (sat : CompositeVector) (wrm : String × WRM) :
    (Saturation_region mesh pres p_atm sat wrm).size "cell" = sat.size "cell" ∧
    ∀ k, (Saturation_region mesh pres p_atm sat wrm).entry "cell" k
      = if k ∈ mesh.get_set_entities wrm.1 ∧ k < sat.size "cell" then
          wrm.2.saturation (p_atm - pres.entry "cell" k)
        else sat.entry "cell" k :=
  set_entries_spec (fun c => wrm.2.saturation (p_atm - pres.entry "cell" c))
    (mesh.get_set_entities wrm.1) sat

theorem Saturation_spec (mesh : FlowMesh) (pres : CompositeVector) (p_atm : ℚ)
    (wrm_ : List (String × WRM)) (sat : CompositeVector) :
    (Saturation_ mesh wrm_ pres p_atm sat).size "cell" = sat.size "cell" ∧
    ∀ k, (Saturation_ mesh wrm_ pres p_atm sat).entry "cell" k
      = if k < sat.size "cell" then
          match last_law mesh wrm_ k with
          | some w => w.saturation (p_atm - pres.entry "cell" k)
          | none => sat.entry "cell" k
        else sat.entry "cell" k := by
  induction wrm_ generalizing sat with
  | nil => exact ⟨rfl, fun k => by simp [Saturation_, last_law]⟩
  | cons wrm rest ih =>
    obtain ⟨hsize, hentry⟩ := ih (Saturation_region mesh pres p_atm sat wrm)
    obtain ⟨hs1, he1⟩ := Saturation_region_spec mesh pres p_atm sat wrm
    have hfold : Saturation_ mesh (wrm :: rest) pres p_atm sat
        = Saturation_ mesh rest pres p_atm (Saturation_region mesh pres p_atm sat wrm) := rfl
    refine ⟨by rw [hfold, hsize, hs1], fun k => ?_⟩
    rw [hfold, hentry k, hs1, he1 k]
    by_cases hk : k < sat.size "cell"
    · cases hl : last_law mesh rest k with
      | some w => simp [last_law, hl, hk]
      | none =>
        by_cases hin : k ∈ mesh.get_set_entities wrm.1
        · simp [last_law, hl, hk, hin]
        · simp [last_law, hl, hk, hin]
    · simp [hk]

/-- C15 (the claim fails): with the one region "bottom" holding cell 0, cell 1
belongs to no configured region; whatever saturation it held before (9/10
or 1/10), `Saturation_` leaves it there, while cell 0 gets the value of the
region's law at `p_atm - pressure = 1`. -/
theorem C15_unmatched_cell_keeps_value :
    last_law Example.flow_mesh [("bottom", Example.wrm)] 1 = none ∧
    (Saturation_ Example.flow_mesh [("bottom", Example.wrm)] (Example.cell_face [3, 5] []) 4
      (Example.cell_face [9/10, 9/10] [])).entry "cell" 1 = 9/10 ∧
    (Saturation_ Example.flow_mesh [("bottom", Example.wrm)] (Example.cell_face [3, 5] []) 4
      (Example.cell_face [1/10, 1/10] [])).entry "cell" 1 = 1/10 ∧
    (Saturation_ Example.flow_mesh [("bottom", Example.wrm)] (Example.cell_face [3, 5] []) 4
      (Example.cell_face [9/10, 9/10] [])).entry "cell" 0 = 1/2 := by
  have h1 : last_law Example.flow_mesh [("bottom", Example.wrm)] 1 = none := by
    simp [last_law, Example.flow_mesh]
  have h0 : ∃ w, last_law Example.flow_mesh [("bottom", Example.wrm)] 0 = some w ∧
      w = Example.wrm := by
    simp [last_law, Example.flow_mesh]
  have s1 : (Example.cell_face [9/10, 9/10] []).size "cell" = 2 := rfl
  have s2 : (Example.cell_face [1/10, 1/10] []).size "cell" = 2 := rfl
  refine ⟨h1, ?_, ?_, ?_⟩
  · rw [(Saturation_spec _ _ _ _ _).2 1, h1, s1]
    simp [Example.cell_face, CompositeVector.entry, CompositeVector.ViewComponent, findView, mv_get]
  · rw [(Saturation_spec _ _ _ _ _).2 1, h1, s2]
    simp [Example.cell_face, CompositeVector.entry, CompositeVector.ViewComponent, findView, mv_get]
  · obtain ⟨w, hw, rfl⟩ := h0
    rw [(Saturation_spec _ _ _ _ _).2 0, hw, s1]
    simp [Example.cell_face, CompositeVector.entry, CompositeVector.ViewComponent, findView,
      mv_get, Example.wrm]
    norm_num

/-- C15 (amended): `Saturation_` assigns to every owned cell that lies in at
least one configured region the liquid saturation given by the closure law
of the last such region in `wrm_`, evaluated at capillary pressure
`p_atm - pressure(cell)`; an owned cell that lies in none of the configured
regions keeps the saturation it had. -/
theorem C15_saturation_by_region (mesh : FlowMesh) (wrm_ : List (String × WRM))
    (pres : CompositeVector) (p_atm : ℚ) (sat_liq : CompositeVector) (c : Nat)
    (hc : c < sat_liq.size "cell") :
    (Saturation_ mesh wrm_ pres p_atm sat_liq).entry "cell" c
      = match last_law mesh wrm_ c with
        | some w => w.saturation (p_atm - pres.entry "cell" c)
        | none => sat_liq.entry "cell" c := by
  rw [(Saturation_spec mesh pres p_atm wrm_ sat_liq).2 c, if_pos hc]

/-- C15 (amended) on the two-cell column: the value left at cell 0 is the one
of the law of region "bottom". -/
theorem C15_saturation_by_region_witness :
    (0 : Nat) < (Example.cell_face [9/10, 9/10] []).size "cell" ∧
    (Saturation_ Example.flow_mesh [("bottom", Example.wrm)] (Example.cell_face [3, 5] []) 4
      (Example.cell_face [9/10, 9/10] [])).entry "cell" 0
      = match last_law Example.flow_mesh [("bottom", Example.wrm)] 0 with
        | some w => w.saturation (4 - (Example.cell_face [3, 5] []).entry "cell" 0)
        | none => (Example.cell_face [9/10, 9/10] []).entry "cell" 0 :=
  ⟨by decide,
   C15_saturation_by_region Example.flow_mesh [("bottom", Example.wrm)]
    (Example.cell_face [3, 5] []) 4 (Example.cell_face [9/10, 9/10] []) 0 (by decide)⟩

end Richards

theorem getD_set_any {α : Type} (a : List α) (i k : Nat) (x d : α) :
    (a.set i x).getD k d = if k = i ∧ i < a.length then x else a.getD k d := by
  simp only [List.getD_eq_getElem?_getD, List.getElem?_set]
  by_cases h : i = k
  · subst h
    by_cases h2 : i < a.length
    · simp [h2]
    · simp [h2]
      rw [List.getElem?_eq_none (by omega)]
      rfl
  · have : ¬ k = i := fun e => h e.symm
    simp [h, this]

namespace Richards

variable {M : Type}

theorem AddGravityFluxes_faces_spec (flux : Nat → ℚ) (n : Nat) (Ff : List ℚ) (Fc : ℚ) :
    (AddGravityFluxes_faces flux n (Ff, Fc)).1.length = Ff.length ∧
    (∀ k, k < n → k < Ff.length →
      (AddGravityFluxes_faces flux n (Ff, Fc)).1.getD k 0 = Ff.getD k 0 + flux k) ∧
    (∀ k, n ≤ k → (AddGravityFluxes_faces flux n (Ff, Fc)).1.getD k 0 = Ff.getD k 0) ∧
    (AddGravityFluxes_faces flux n (Ff, Fc)).2 = Fc - ((List.range n).map flux).sum := by
  induction n with
  | zero => exact ⟨rfl, fun k h => absurd h (Nat.not_lt_zero k), fun _ _ => rfl, by simp [AddGravityFluxes_faces]⟩
  | succ n ih =>
    obtain ⟨hlen, hdone, hrest, hFc⟩ := ih
    refine ⟨?_, ?_, ?_, ?_⟩
    · simp only [AddGravityFluxes_faces, List.length_set, hlen]
    · intro k hk hb
      simp only [AddGravityFluxes_faces]
      rw [getD_set_any, hlen]
      by_cases e : k = n
      · subst e
        rw [if_pos ⟨rfl, hb⟩, hrest k (le_refl k)]
      · rw [if_neg (fun h => e h.1)]
        exact hdone k (by omega) hb
    · intro k hk
      simp only [AddGravityFluxes_faces]
      rw [getD_set_any]
      have e : ¬ k = n := by omega
      rw [if_neg (fun h => e h.1)]
      exact hrest k (by omega)
    · simp only [AddGravityFluxes_faces, hFc, List.range_succ, List.map_append, List.sum_append,
        List.map_cons, List.map_nil, List.sum_cons, List.sum_nil]
      ring

theorem AddGravityFluxes_loop_spec (mesh : FlowMesh) (K_ : Nat → Point → Point) (gravity : Point)
    (Krel rho : CompositeVector) (matrix : MatrixMFD M) (k : Nat) :
    (AddGravityFluxes_loop mesh K_ gravity Krel rho k matrix).Ff_cells_.length
      = matrix.Ff_cells_.length ∧
    (AddGravityFluxes_loop mesh K_ gravity Krel rho k matrix).Fc_cells_.length
      = matrix.Fc_cells_.length ∧
    (AddGravityFluxes_loop mesh K_ gravity Krel rho k matrix).rest = matrix.rest ∧
    (∀ c, c < k → c < matrix.Ff_cells_.length →
      (AddGravityFluxes_loop mesh K_ gravity Krel rho k matrix).Ff_cells_.getD c []
        = (AddGravityFluxes_faces (outward_flux mesh K_ gravity Krel rho c)
            (mesh.cell_get_faces_and_dirs c).length
            (matrix.Ff_cells_.getD c [], matrix.Fc_cells_.getD c 0)).1) ∧
    (∀ c, c < k → c < matrix.Fc_cells_.length →
      (AddGravityFluxes_loop mesh K_ gravity Krel rho k matrix).Fc_cells_.getD c 0
        = (AddGravityFluxes_faces (outward_flux mesh K_ gravity Krel rho c)
            (mesh.cell_get_faces_and_dirs c).length
            (matrix.Ff_cells_.getD c [], matrix.Fc_cells_.getD c 0)).2) ∧
    (∀ c, k ≤ c →
      (AddGravityFluxes_loop mesh K_ gravity Krel rho k matrix).Ff_cells_.getD c []
        = matrix.Ff_cells_.getD c [] ∧
      (AddGravityFluxes_loop mesh K_ gravity Krel rho k matrix).Fc_cells_.getD c 0
        = matrix.Fc_cells_.getD c 0) := by
  induction k with
  | zero =>
    exact ⟨rfl, rfl, rfl, fun c h => absurd h (Nat.not_lt_zero c),
      fun c h => absurd h (Nat.not_lt_zero c), fun _ _ => ⟨rfl, rfl⟩⟩
  | succ k ih =>
    obtain ⟨hl1, hl2, hrest, hFf, hFc, hother⟩ := ih
    refine ⟨?_, ?_, ?_, ?_, ?_, ?_⟩
    · simp only [AddGravityFluxes_loop, AddGravityFluxes_cell, List.length_set, hl1]
    · simp only [AddGravityFluxes_loop, AddGravityFluxes_cell, List.length_set, hl2]
    · simp only [AddGravityFluxes_loop, AddGravityFluxes_cell, hrest]
    · intro c hc hb
      simp only [AddGravityFluxes_loop, AddGravityFluxes_cell]
      rw [getD_set_any, hl1]
      by_cases e : c = k
      · subst e
        simp only [true_and, hb, if_true, (hother c (le_refl c)).1, (hother c (le_refl c)).2]
      · simp only [e, false_and, if_false]
        exact hFf c (by omega) hb
    · intro c hc hb
      simp only [AddGravityFluxes_loop, AddGravityFluxes_cell]
      rw [getD_set_any, hl2]
      by_cases e : c = k
      · subst e
        simp only [true_and, hb, if_true, (hother c (le_refl c)).1, (hother c (le_refl c)).2]
      · simp only [e, false_and, if_false]
        exact hFc c (by omega) hb
    · intro c hc
      have e : ¬ c = k := by omega
      simp only [AddGravityFluxes_loop, AddGravityFluxes_cell]
      rw [getD_set_any, getD_set_any]
      simp only [e, false_and, if_false]
      exact hother c (by omega)

/-- C19: for every owned cell `c` of an operator that holds a cell entry `Fc[c]`
and one face entry `Ff[c][n]` per face of the cell, `AddGravityFluxes_` adds
to each `Ff[c][n]` the outward flux
`((K[c]*gravity)·normal(f)) * dir[n] * Krel_face(f) * Krel_cell(c) * rho(c)`
and subtracts from `Fc[c]` the sum of these fluxes, so the amount
subtracted from `Fc[c]` equals the sum of the amounts added to the
`Ff[c][n]`; the entries of cells that are not owned, and the rest of the
operator, are unchanged. -/
theorem C19_gravity_locally_conservative (mesh : FlowMesh) (K_ : Nat → Point → Point)
    (g_vec : Point) (S : State) (matrix : MatrixMFD M) (c : Nat)
    (hc : c < (S.GetFieldData "density_liquid").size "cell")
    (hFf : c < matrix.Ff_cells_.length) (hFc : c < matrix.Fc_cells_.length)
    (hshape : (mesh.cell_get_faces_and_dirs c).length ≤ (matrix.Ff_cells_.getD c []).length) :
    (∀ n, n < (mesh.cell_get_faces_and_dirs c).length →
      ((AddGravityFluxes_ mesh K_ g_vec S matrix).Ff_cells_.getD c []).getD n 0
        = (matrix.Ff_cells_.getD c []).getD n 0
          + outward_flux mesh K_ g_vec (S.GetFieldData "rel_perm_faces")
              (S.GetFieldData "density_liquid") c n) ∧
    (AddGravityFluxes_ mesh K_ g_vec S matrix).Fc_cells_.getD c 0
      = matrix.Fc_cells_.getD c 0
        - ((List.range (mesh.cell_get_faces_and_dirs c).length).map
            (outward_flux mesh K_ g_vec (S.GetFieldData "rel_perm_faces")
              (S.GetFieldData "density_liquid") c)).sum ∧
    matrix.Fc_cells_.getD c 0 - (AddGravityFluxes_ mesh K_ g_vec S matrix).Fc_cells_.getD c 0
      = ((List.range (mesh.cell_get_faces_and_dirs c).length).map
          (fun n => ((AddGravityFluxes_ mesh K_ g_vec S matrix).Ff_cells_.getD c []).getD n 0
            - (matrix.Ff_cells_.getD c []).getD n 0)).sum ∧
    (∀ c', (S.GetFieldData "density_liquid").size "cell" ≤ c' →
      (AddGravityFluxes_ mesh K_ g_vec S matrix).Ff_cells_.getD c' []
        = matrix.Ff_cells_.getD c' [] ∧
      (AddGravityFluxes_ mesh K_ g_vec S matrix).Fc_cells_.getD c' 0
        = matrix.Fc_cells_.getD c' 0) ∧
    (AddGravityFluxes_ mesh K_ g_vec S matrix).rest = matrix.rest := by
  obtain ⟨-, -, hrest, hFfs, hFcs, hother⟩ := AddGravityFluxes_loop_spec mesh K_ g_vec
    (S.GetFieldData "rel_perm_faces") (S.GetFieldData "density_liquid") matrix
    ((S.GetFieldData "density_liquid").size "cell")
  obtain ⟨-, hadd, -, hsub⟩ := AddGravityFluxes_faces_spec
    (outward_flux mesh K_ g_vec (S.GetFieldData "rel_perm_faces")
      (S.GetFieldData "density_liquid") c)
    (mesh.cell_get_faces_and_dirs c).length (matrix.Ff_cells_.getD c [])
    (matrix.Fc_cells_.getD c 0)
  have h1 : ∀ n, n < (mesh.cell_get_faces_and_dirs c).length →
      ((AddGravityFluxes_ mesh K_ g_vec S matrix).Ff_cells_.getD c []).getD n 0
        = (matrix.Ff_cells_.getD c []).getD n 0
          + outward_flux mesh K_ g_vec (S.GetFieldData "rel_perm_faces")
              (S.GetFieldData "density_liquid") c n := by
    intro n hn
    have := hFfs c hc hFf
    simp only [AddGravityFluxes_]
    rw [this]
    exact hadd n hn (by omega)
  have h2 : (AddGravityFluxes_ mesh K_ g_vec S matrix).Fc_cells_.getD c 0
      = matrix.Fc_cells_.getD c 0
        - ((List.range (mesh.cell_get_faces_and_dirs c).length).map
            (outward_flux mesh K_ g_vec (S.GetFieldData "rel_perm_faces")
              (S.GetFieldData "density_liquid") c)).sum := by
    have := hFcs c hc hFc
    simp only [AddGravityFluxes_]
    rw [this]
    exact hsub
  refine ⟨h1, h2, ?_, hother, hrest⟩
  rw [h2]
  have hmap : (List.range (mesh.cell_get_faces_and_dirs c).length).map
      (fun n => ((AddGravityFluxes_ mesh K_ g_vec S matrix).Ff_cells_.getD c []).getD n 0
        - (matrix.Ff_cells_.getD c []).getD n 0)
      = (List.range (mesh.cell_get_faces_and_dirs c).length).map
          (outward_flux mesh K_ g_vec (S.GetFieldData "rel_perm_faces")
            (S.GetFieldData "density_liquid") c) := by
    apply List.map_congr_left
    intro n hn
    rw [h1 n (List.mem_range.mp hn)]
    ring
  rw [hmap]
  ring

end Richards

namespace Richards

/-- C19 on the two-cell column with gravity -10: the face entries of cell 0
become 20 and -10, its cell entry becomes -10, and 0 - (-10) = 20 + (-10). -/
theorem C19_gravity_locally_conservative_witness :
    (AddGravityFluxes_ Example.flow_mesh Example.K_ [-10] (Example.flow_state "flow")
      (⟨[[0, 0], [0, 0]], [0, 0], ()⟩ : MatrixMFD Unit)).Ff_cells_ = [[20, -10], [10, -5]] ∧
    (AddGravityFluxes_ Example.flow_mesh Example.K_ [-10] (Example.flow_state "flow")
      (⟨[[0, 0], [0, 0]], [0, 0], ()⟩ : MatrixMFD Unit)).Fc_cells_ = [-10, -5] ∧
    (0 : ℚ) - (AddGravityFluxes_ Example.flow_mesh Example.K_ [-10] (Example.flow_state "flow")
        (⟨[[0, 0], [0, 0]], [0, 0], ()⟩ : MatrixMFD Unit)).Fc_cells_.getD 0 0
      = ((List.range 2).map
          (fun n => ((AddGravityFluxes_ Example.flow_mesh Example.K_ [-10]
              (Example.flow_state "flow")
              (⟨[[0, 0], [0, 0]], [0, 0], ()⟩ : MatrixMFD Unit)).Ff_cells_.getD 0 []).getD n 0
            - ([0, 0] : List ℚ).getD n 0)).sum := by
  refine ⟨?_, ?_, (C19_gravity_locally_conservative Example.flow_mesh Example.K_ [-10]
    (Example.flow_state "flow") (⟨[[0, 0], [0, 0]], [0, 0], ()⟩ : MatrixMFD Unit) 0
    (by decide) (by decide) (by decide) (by decide)).2.2.1⟩
  · simp [AddGravityFluxes_, AddGravityFluxes_loop, AddGravityFluxes_cell,
      AddGravityFluxes_faces, outward_flux, Example.flow_mesh, Example.K_, Point.dot,
      State.GetFieldData, CompositeVector.size, CompositeVector.entry, Example.flow_state,
      CompositeVector.ViewComponent, findView, Example.cell_face, MyLength, mv_get]
    norm_num [List.getElem_cons]
  · simp [AddGravityFluxes_, AddGravityFluxes_loop, AddGravityFluxes_cell,
      AddGravityFluxes_faces, outward_flux, Example.flow_mesh, Example.K_, Point.dot,
      State.GetFieldData, CompositeVector.size, CompositeVector.entry, Example.flow_state,
      CompositeVector.ViewComponent, findView, Example.cell_face, MyLength, mv_get]
    norm_num [List.getElem_cons]

end Richards

namespace Richards

end Richards

namespace Field_CV

/-- C17 (the code at the failing input): the list announces one mesh block and
holds no "Constant p" value; `Initialize` on a field that is not initialized
returns normally, leaves the data as it was (cell values 1 and 2), and
still sets the initialized flag, through the `set_initialized()` that the
mesh-block loop calls in every round; on the empty list, where only the
first, guarded `set_initialized()` can run, the flag stays unset. -/
theorem C17_initialized_without_values :
    Example.pressure_field.initialized_ = false ∧
    Example.blocks_without_constants.isParameter "Constant p" = false ∧
    (Initialize (fun _ _ => [0]) Example.pressure_field Example.pressure_store
      Example.blocks_without_constants).result = Except.ok () ∧
    (Initialize (fun _ _ => [0]) Example.pressure_field Example.pressure_store
      Example.blocks_without_constants).state.1.initialized_ = true ∧
    (Initialize (fun _ _ => [0]) Example.pressure_field Example.pressure_store
      Example.blocks_without_constants).state.2 0 = ⟨[⟨"cell", ["p"], [[1, 2]]⟩]⟩ ∧
    (Initialize (fun _ _ => [0]) Example.pressure_field Example.pressure_store
      []).state.1.initialized_ = false := by
  refine ⟨rfl, rfl, ?_, ?_, ?_, ?_⟩ <;> rfl

theorem Initialize_dofs_flag (plist : ParameterList) (names : List String) (r d : Nat)
    (v v' : List ℚ) :
    (Initialize_dofs plist names r d v).map Prod.fst
      = (Initialize_dofs plist names r d v').map Prod.fst := by
  induction r generalizing d v v' with
  | zero => rfl
  | succ r ih =>
    simp only [Initialize_dofs]
    split
    · cases plist.get_double ("Constant " ++ names.getD d "") with
      | error e => rfl
      | ok x => exact ih (d + 1) _ _
    · rfl

theorem Initialize_components_flag (plist : ParameterList) (layout : List (List String × Nat))
    (i : Nat) (vals vals' : List (List ℚ)) :
    (Initialize_components plist layout i vals).map Prod.fst
      = (Initialize_components plist layout i vals').map Prod.fst := by
  induction layout generalizing i vals vals' with
  | nil => rfl
  | cons c rest ih =>
    obtain ⟨names, n⟩ := c
    have h := Initialize_dofs_flag plist names n 0 (vals.getD i []) (vals'.getD i [])
    simp only [Initialize_components]
    cases h1 : Initialize_dofs plist names n 0 (vals.getD i []) with
    | error e =>
      cases h2 : Initialize_dofs plist names n 0 (vals'.getD i []) with
      | error e' =>
        rw [h1, h2] at h
        simpa [Except.map] using h
      | ok p' =>
        rw [h1, h2] at h
        simp [Except.map] at h
    | ok p1 =>
      cases h2 : Initialize_dofs plist names n 0 (vals'.getD i []) with
      | error e' =>
        rw [h1, h2] at h
        simp [Except.map] at h
      | ok p' =>
        rw [h1, h2] at h
        obtain ⟨b, w⟩ := p1
        obtain ⟨b', w'⟩ := p'
        have hb : b = b' := by simpa [Except.map] using h
        subst hb
        have h3 := ih (i + 1) (vals.set i w) (vals'.set i w')
        simp only []
        cases h4 : Initialize_components plist rest (i + 1) (vals.set i w) with
        | error e =>
          cases h5 : Initialize_components plist rest (i + 1) (vals'.set i w') with
          | error e' =>
            rw [h4, h5] at h3
            simpa [Except.map] using h3
          | ok q' =>
            rw [h4, h5] at h3
            simp [Except.map] at h3
        | ok q =>
          cases h5 : Initialize_components plist rest (i + 1) (vals'.set i w') with
          | error e' =>
            rw [h4, h5] at h3
            simp [Except.map] at h3
          | ok q' =>
            rw [h4, h5] at h3
            obtain ⟨c1, u⟩ := q
            obtain ⟨c2, u'⟩ := q'
            have hc : c1 = c2 := by simpa [Except.map] using h3
            subst hc
            rfl

end Field_CV

theorem setView_names (name : String) (v : Epetra_MultiVector) (cs : List CVComponent) :
    (setView name v cs).map (fun c => c.name) = cs.map (fun c => c.name) ∧
    (setView name v cs).map (fun c => c.subfield_names) = cs.map (fun c => c.subfield_names) := by
  induction cs with
  | nil => exact ⟨rfl, rfl⟩
  | cons c cs ih =>
    by_cases h : c.name = name
    · simp [setView, h]
    · simp [setView, h, ih.1, ih.2]

theorem setView_lengths (name : String) (v : Epetra_MultiVector) (cs : List CVComponent)
    (hv : v.length = ((findView name cs).getD []).length) :
    (setView name v cs).map (fun c => c.view.length) = cs.map (fun c => c.view.length) := by
  induction cs with
  | nil => rfl
  | cons c cs ih =>
    by_cases h : c.name = name
    · simp [setView, h]
      simpa [findView, h] using hv
    · simp only [setView, h, if_false, List.map_cons]
      rw [ih (by simpa [findView, h] using hv)]

theorem put_scalar_block_length (ents : List Nat) (v : Epetra_MultiVector) (vals : List ℚ) :
    (CompositeVector.put_scalar_block ents v vals).length = v.length := by
  induction v generalizing vals with
  | nil => rfl
  | cons a v ih => simp [CompositeVector.put_scalar_block, ih]

theorem PutScalar_block_layout (cv : CompositeVector) (name : String) (ents : List Nat)
    (vals : List ℚ) :
    (cv.PutScalar_block name ents vals).names = cv.names ∧
    (cv.PutScalar_block name ents vals).subfield_names = cv.subfield_names ∧
    (cv.PutScalar_block name ents vals).num_dofs = cv.num_dofs := by
  refine ⟨?_, ?_, ?_⟩
  · exact (setView_names name _ cv.components).1
  · exact (setView_names name _ cv.components).2
  · exact setView_lengths name _ cv.components (put_scalar_block_length _ _ _)

namespace Field_CV

theorem Initialize_assign_block_layout (ents : String → List Nat) (names : List String) (i : Nat)
    (vals : List (List ℚ)) (data : CompositeVector) :
    (Initialize_assign_block ents names i vals data).names = data.names ∧
    (Initialize_assign_block ents names i vals data).subfield_names = data.subfield_names ∧
    (Initialize_assign_block ents names i vals data).num_dofs = data.num_dofs := by
  induction names generalizing i data with
  | nil => exact ⟨rfl, rfl, rfl⟩
  | cons n names ih =>
    obtain ⟨h1, h2, h3⟩ := ih (i + 1) (data.PutScalar_block n (ents n) (vals.getD i []))
    obtain ⟨k1, k2, k3⟩ := PutScalar_block_layout data n (ents n) (vals.getD i [])
    exact ⟨h1.trans k1, h2.trans k2, h3.trans k3⟩

theorem sublist_error (p : ParameterList) (name : String) (e : Err)
    (h : p.sublist name = Except.error e) : e = Err.InvalidParameterType := by
  unfold ParameterList.sublist at h
  split at h <;> cases h
  rfl

theorem get_int_error (p : ParameterList) (name : String) (e : Err)
    (h : p.get_int name = Except.error e) : e = Err.InvalidParameterType := by
  unfold ParameterList.get_int at h
  split at h <;> cases h
  rfl

theorem get_double_error (p : ParameterList) (name : String) (e : Err)
    (h : p.get_double name = Except.error e) : e = Err.InvalidParameterType := by
  unfold ParameterList.get_double at h
  split at h <;> cases h
  rfl

theorem Initialize_dofs_error (plist : ParameterList) (names : List String) (r d : Nat)
    (v : List ℚ) (e : Err) (h : Initialize_dofs plist names r d v = Except.error e) :
    e = Err.InvalidParameterType := by
  induction r generalizing d v with
  | zero => cases h
  | succ r ih =>
    simp only [Initialize_dofs] at h
    split at h
    · split at h
      next e1 h1 =>
        cases h
        exact get_double_error _ _ _ h1
      next x h1 => exact ih _ _ h
    · cases h

theorem Initialize_components_error (plist : ParameterList) (layout : List (List String × Nat))
    (i : Nat) (vals : List (List ℚ)) (e : Err)
    (h : Initialize_components plist layout i vals = Except.error e) :
    e = Err.InvalidParameterType := by
  induction layout generalizing i vals with
  | nil => cases h
  | cons c rest ih =>
    obtain ⟨names, n⟩ := c
    simp only [Initialize_components] at h
    split at h
    next e1 h1 =>
      cases h
      exact Initialize_dofs_error _ _ _ _ _ _ h1
    next found vals_i h1 =>
      split at h
      next e2 h2 =>
        cases h
        exact ih _ _ h2
      next => cases h

end Field_CV

namespace Field_CV

theorem Initialize_components_all (plist : ParameterList) (layout : List (List String × Nat))
    (vals1 v1 : List (List ℚ))
    (h : Initialize_components plist layout 0 vals1 = Except.ok (true, v1))
    (vals : List (List ℚ)) :
    ∃ v, Initialize_components plist layout 0 vals = Except.ok (true, v) := by
  have hflag := Initialize_components_flag plist layout 0 vals vals1
  rw [h] at hflag
  cases h2 : Initialize_components plist layout 0 vals with
  | error e =>
    rw [h2] at hflag
    simp [Except.map] at hflag
  | ok q =>
    rw [h2] at hflag
    obtain ⟨b, v⟩ := q
    have hb : b = true := by simpa [Except.map] using hflag
    subst hb
    exact ⟨v, rfl⟩

theorem Initialize_block_inv (block_entities : String → Int → List Nat) (plist : ParameterList)
    (s : InitializeState) (nb : Nat)
    (hInv : s.got_a_block = true → ∀ vals, ∃ v,
      Initialize_components plist (s.data.subfield_names.zip s.data.num_dofs) 0 vals
        = Except.ok (true, v)) :
    (∀ t, (Initialize_block block_entities plist s nb).result ≠ Except.error (Err.Message t)) ∧
    ((Initialize_block block_entities plist s nb).state.got_a_block = true → ∀ vals, ∃ v,
      Initialize_components plist
        ((Initialize_block block_entities plist s nb).state.data.subfield_names.zip
          (Initialize_block block_entities plist s nb).state.data.num_dofs) 0 vals
        = Except.ok (true, v)) := by
  simp only [Initialize_block]
  split
  next e h =>
    refine ⟨fun t ht => ?_, hInv⟩
    rw [sublist_error _ _ _ h] at ht
    cases ht
  next sub h =>
    split
    next e h2 =>
      refine ⟨fun t ht => ?_, hInv⟩
      rw [get_int_error _ _ _ h2] at ht
      cases ht
    next id h2 =>
      split
      next e h3 =>
        refine ⟨fun t ht => ?_, hInv⟩
        rw [Initialize_components_error _ _ _ _ _ h3] at ht
        cases ht
      next got vals1 h3 =>
        split
        next hbad =>
          obtain ⟨v, hv⟩ := hInv hbad.1 s.vals
          rw [h3, hbad.2] at hv
          cases hv
        next hgood =>
          split
          next hgot =>
            subst hgot
            refine ⟨fun t ht => (by cases ht), fun _ vals => ?_⟩
            obtain ⟨-, k2, k3⟩ := Initialize_assign_block_layout
              (fun name => block_entities name id) s.data.names 0 vals1 s.data
            simp only [k2, k3]
            exact Initialize_components_all plist _ s.vals vals1 h3 vals
          next hgot =>
            refine ⟨fun t ht => (by cases ht), fun hb => ?_⟩
            have hb2 : s.got_a_block = true := hb
            exact absurd ⟨hb2, by simpa using hgot⟩ hgood

theorem Initialize_blocks_inv (block_entities : String → Int → List Nat) (plist : ParameterList)
    (s : InitializeState) (n : Nat)
    (hInv : s.got_a_block = true → ∀ vals, ∃ v,
      Initialize_components plist (s.data.subfield_names.zip s.data.num_dofs) 0 vals
        = Except.ok (true, v)) :
    (∀ t, (Initialize_blocks block_entities plist n s).result ≠ Except.error (Err.Message t)) ∧
    ((Initialize_blocks block_entities plist n s).state.got_a_block = true → ∀ vals, ∃ v,
      Initialize_components plist
        ((Initialize_blocks block_entities plist n s).state.data.subfield_names.zip
          (Initialize_blocks block_entities plist n s).state.data.num_dofs) 0 vals
        = Except.ok (true, v)) := by
  induction n with
  | zero => exact ⟨fun t ht => (by cases ht), hInv⟩
  | succ n ih =>
    obtain ⟨hres, hinv⟩ := ih
    simp only [Initialize_blocks]
    split
    next e he =>
      refine ⟨fun t ht => ?_, hinv⟩
      cases ht
      exact hres t he
    next u hu => exact Initialize_block_inv block_entities plist _ (n + 1) hinv

/-- C18: `Initialize` never raises the error "initialized at least one, but not
all mesh block" (nor any other message error): for every parameter list,
field layout and number of mesh blocks; the completeness check reads the
constants from the outer list, takes nothing from the block, and answers
the same whatever values were collected before. -/
theorem C18_partial_block_error_unreachable (block_entities : String → Int → List Nat)
    (f : Field_CV) (store : Store) (plist : ParameterList) :
    (∀ t, (Initialize block_entities f store plist).result ≠ Except.error (Err.Message t)) ∧
    (∀ (layout : List (List String × Nat)) (vals vals' : List (List ℚ)),
      (Initialize_components plist layout 0 vals).map Prod.fst
        = (Initialize_components plist layout 0 vals').map Prod.fst) := by
  refine ⟨fun t => ?_, fun layout vals vals' => Initialize_components_flag plist layout 0 vals vals'⟩
  simp only [Initialize]
  split
  next => intro ht; cases ht
  next h hd =>
    split
    next e he =>
      intro ht
      rw [Initialize_components_error _ _ _ _ _ he] at ht
      cases ht
    next got vals he =>
      split
      next =>
        split
        next e h2 =>
          intro ht
          rw [get_int_error _ _ _ h2] at ht
          cases ht
        next num_blocks h2 =>
          refine (Initialize_blocks_inv block_entities plist _ num_blocks.toNat ?_).1 t
          intro hb
          split at hb <;> cases hb
      next => intro ht; cases ht

end Field_CV

end Amanzi
